import Mathlib

/-!
Verification of the Pawparazzi backend (Cloudflare Worker + Supabase).

This file gives a shallow embedding, in Lean, of the data model and of the
operations of the backend that the frozen claims talk about, translated from
the TypeScript services/routes and from the SQL routines of the repository:

* `src/validation.ts` — token generation and validation, limit parsing;
* `src/services/userService.ts` — registration, email-keyed login, session
  resolution;
* `src/services/followService.ts` together with
  `src/services/userMetricsService.ts` and `sql/user_metrics.sql` — follow
  and unfollow with atomic counter updates;
* `src/services/catLikeService.ts` — like and unlike with a recount;
* `sql/cat_likes.sql` — atomic like routines;
* `src/services/collectionService.ts` and `sql/collections.sql` — collection
  mutations with ownership checks;
* `src/routes/cats.ts` — keyset pagination of the cat listing;
* `src/routes/comments.ts`, `src/routes/userRoutes.ts` — session gating.

Stores are lists of rows; a Supabase select is a filter, `maybeSingle`
returns an error on more than one row; timestamps are natural numbers
(ISO-8601 strings compare chronologically); random values (session tokens,
row timestamps) are passed in as explicit parameters.
-/

deriving instance DecidableEq for Except

namespace Pawparazzi

/-! ## Errors (src/errors.ts)

`HttpError(message, status)`, `AuthError(message)` with status 401, and
`ConflictError(message)` with status 409. -/

inductive AppError where
  | http (message : String) (status : Nat)
  | auth (message : String)
  | conflict (message : String)
deriving Repr, DecidableEq

def AppError.status : AppError → Nat
  | .http _ s => s
  | .auth _ => 401
  | .conflict _ => 409

/-! ## Data model (conceptual tables of the Supabase store)

Image payload fields (`r2_path` contents, latitude/longitude floats) are
carried as inert data or omitted: no verified operation reads them. -/

/-- A row of the `users` table. The three counters and `likes` are nullable
in the database (the SQL routines wrap them in `coalesce(_, 0)`). -/
structure UserRow where
  username : String
  email : String
  password_hash : String
  session_token : Option String
  bio : Option String
  location : Option String
  r2_avatar : Option String
  post_count : Option Nat
  follower_count : Option Nat
  following_count : Option Nat
deriving Repr, DecidableEq

/-- A row of the `follows` table, primary key (follower, followee). -/
structure FollowRow where
  follower_username : String
  followee_username : String
  followed_at : Nat
deriving Repr, DecidableEq

/-- A row of the `likes` table, primary key (cat_id, username). -/
structure LikeRow where
  cat_id : String
  username : String
deriving Repr, DecidableEq

/-- A row of the `cats` table (geolocation floats are not modeled; no
verified operation reads them). -/
structure CatRow where
  id : String
  name : String
  tags : List String
  username : String
  description : Option String
  r2_path : String
  created_at : Nat
  likes : Option Nat
deriving Repr, DecidableEq

/-- A row of the `collections` table (see sql/collections.sql). -/
structure CollectionRow where
  id : String
  owner_username : String
  name : String
  description : Option String
  cat_count : Nat
  created_at : Nat
  updated_at : Nat
deriving Repr, DecidableEq

/-- A row of the `collection_cats` table, primary key (collection_id, cat_id). -/
structure CollectionCatRow where
  collection_id : String
  cat_id : String
  added_at : Nat
deriving Repr, DecidableEq

/-- The relational store. -/
structure Store where
  users : List UserRow
  follows : List FollowRow
  likes : List LikeRow
  cats : List CatRow
  collections : List CollectionRow
  collection_cats : List CollectionCatRow
deriving Repr, DecidableEq

/-! ## Query helpers -/

/-- PostgREST `maybeSingle()`: `none` on zero rows, the row on one row, and
an error (surfaced by each call site as an `HttpError` with status 500) when
more than one row matches. -/
def maybeSingle {α : Type} (rows : List α) (errMsg : String) :
    Except AppError (Option α) :=
  match rows with
  | [] => .ok none
  | [r] => .ok (some r)
  | _ => .error (.http errMsg 500)

/-! ## src/validation.ts -/

/-- Hex digit of a nibble, as produced by `Number.prototype.toString(16)`
(lowercase). Values above 15 do not occur for nibbles of a byte. -/
def hexDigitChar (n : Nat) : Char :=
  match n with
  | 0 => '0' | 1 => '1' | 2 => '2' | 3 => '3' | 4 => '4'
  | 5 => '5' | 6 => '6' | 7 => '7' | 8 => '8' | 9 => '9'
  | 10 => 'a' | 11 => 'b' | 12 => 'c' | 13 => 'd' | 14 => 'e' | 15 => 'f'
  | _ => '0'

/-- `generateSessionToken`: 32 random bytes, each rendered as
`b.toString(16).padStart(2, "0")`, joined. The random bytes are an explicit
argument. For `b < 256` the two-character rendering is the high and the low
nibble. -/
def generateSessionToken (bytes : List Nat) : String :=
  String.mk (bytes.flatMap (fun b => [hexDigitChar (b / 16), hexDigitChar (b % 16)]))

/-- A character matched by the class `[a-f0-9]` with the `i` flag. -/
def isHexChar (c : Char) : Bool :=
  (('a' ≤ c && c ≤ 'f') || ('0' ≤ c && c ≤ '9') || ('A' ≤ c && c ≤ 'F'))

/-- `isValidSha256Hex`: false on a missing or empty value, else the regex
test `/^[a-f0-9]{64}$/i`. -/
def isValidSha256Hex (hash : Option String) : Bool :=
  match hash with
  | none => false
  | some h =>
    if h = "" then false
    else h.length == 64 && h.toList.all isHexChar

/-- `validateSessionToken`: a missing (or empty, which is falsy in JS) token
yields "Missing session_token", a non-64-hex token yields
"Invalid session_token", a valid one yields no error. -/
def validateSessionToken (sessionToken : Option String) : Option String :=
  if sessionToken = none ∨ sessionToken = some "" then
    some "Missing session_token"
  else if ¬ isValidSha256Hex sessionToken then
    some "Invalid session_token"
  else
    none

/-- JS whitespace for `trim` (ASCII fragment). -/
def isJsWhitespace (c : Char) : Bool :=
  c = ' ' || c = '\t' || c = '\n' || c = '\r'

/-- `String.prototype.trim` (ASCII whitespace). -/
def jsTrim (s : String) : String :=
  String.mk (((s.toList.dropWhile isJsWhitespace).reverse.dropWhile isJsWhitespace).reverse)

/-- `String.prototype.toLowerCase` on ASCII data. -/
def jsToLower (s : String) : String :=
  String.mk (s.toList.map (fun c =>
    if 'A' ≤ c && c ≤ 'Z' then Char.ofNat (c.toNat + 32) else c))

/-- `normalizeEmail`: `null` for a missing or empty (falsy) email, else
trimmed and lower-cased. Note a whitespace-only email normalizes to the
empty string, which each caller treats as falsy again. -/
def normalizeEmail (email : Option String) : Option String :=
  match email with
  | none => none
  | some e => if e = "" then none else some (jsToLower (jsTrim e))

/-- Falsiness of a JS string-or-null value. -/
def isFalsyStr (s : Option String) : Bool :=
  s = none || s = some ""

/-- `Number.parseInt(str, 10)`: skip leading whitespace, optional sign,
then the maximal run of leading decimal digits; `NaN` (here `none`) when
that run is empty. -/
def parseIntJs (str : String) : Option Int :=
  let cs := str.toList.dropWhile isJsWhitespace
  let signAndRest : Int × List Char :=
    match cs with
    | '-' :: t => (-1, t)
    | '+' :: t => (1, t)
    | _ => (1, cs)
  let digits := signAndRest.2.takeWhile (fun c => c.isDigit)
  if digits.isEmpty then none
  else
    some (signAndRest.1 *
      (digits.foldl (fun acc c => acc * 10 + (c.toNat - 48)) 0 : Nat))

/-- `parseLimitParam(rawLimit, defaultValue, maxValue)`: an absent (falsy)
parameter yields the default with no error; a `NaN` or non-positive parse
yields the default together with the error "Invalid limit"; otherwise
`Math.min(parsed, maxValue)`. -/
def parseLimitParam (rawLimit : Option String) (defaultValue maxValue : Nat) :
    Nat × Option String :=
  if isFalsyStr rawLimit then
    (defaultValue, none)
  else
    match parseIntJs (rawLimit.getD "") with
    | none => (defaultValue, some "Invalid limit")
    | some n =>
      if n ≤ 0 then (defaultValue, some "Invalid limit")
      else (min n.toNat maxValue, none)

/-- Limit parsing of the cat list and tag-search routes
(`parseLimitParam(rawLimit)` in src/routes/cats.ts, defaults 20/50). -/
def catsListLimit (raw : Option String) : Nat × Option String :=
  parseLimitParam raw 20 50

/-- Limit parsing of the collections listing
(`parseLimitParam(rawLimit, 10)` in src/routes/collections.ts). -/
def collectionsListLimit (raw : Option String) : Nat × Option String :=
  parseLimitParam raw 10 50

/-- Limit parsing of the comment listing
(`parseLimitParam(rawLimit, 20, 50)` in src/routes/comments.ts). -/
def commentsListLimit (raw : Option String) : Nat × Option String :=
  parseLimitParam raw 20 50

/-- Limit parsing of the follower/following listings
(`parseLimitParam(limitParam, 25, 100)` in the follow routes). -/
def followersListLimit (raw : Option String) : Nat × Option String :=
  parseLimitParam raw 25 100

/-! ## src/r2.ts -/

/-- `buildPublicR2Url`: empty base returns the path; otherwise the
normalized base joined to the normalized path with a slash. -/
def buildPublicR2Url (base : String) (r2Path : String) : String :=
  let b := if base.endsWith "/" then base.dropRight 1 else base
  let p := if r2Path.startsWith "/" then r2Path.drop 1 else r2Path
  if b = "" then r2Path else b ++ "/" ++ p

/-- `buildOptionalPublicR2Url`. -/
def buildOptionalPublicR2Url (base : String) (r2Path : Option String) :
    Option String :=
  match r2Path with
  | none => none
  | some p => some (buildPublicR2Url base p)

/-! ## src/services/userService.ts

The environment parameter of the service is reduced to the public R2 base
URL, the only datum of `Env` the profile mapping reads. -/

/-- The `UserProfile` shape returned by the user service. -/
structure UserProfile where
  username : String
  bio : Option String
  location : Option String
  email : String
  avatar_url : Option String
deriving Repr, DecidableEq

/-- `mapUserRecordToProfile`. -/
def mapUserRecordToProfile (env : String) (u : UserRow) : UserProfile :=
  { username := u.username
    bio := u.bio
    location := u.location
    email := u.email
    avatar_url := buildOptionalPublicR2Url env u.r2_avatar }

/-- `getUserRecordBySessionToken` (private): select the user row whose
`session_token` equals the given token; a missing row is an
`AuthError("Invalid session token")`. A pure read. -/
def getUserRecordBySessionToken (s : Store) (sessionToken : String) :
    Except AppError UserRow :=
  match maybeSingle (s.users.filter (fun u => u.session_token == some sessionToken))
      "Failed to load user by session token" with
  | .error e => .error e
  | .ok none => .error (.auth "Invalid session token")
  | .ok (some u) => .ok u

/-- `getUserBySessionToken`, as a store operation: the single `SELECT` it
issues leaves every table unchanged, so the operation returns the store it
was given. -/
def getUserBySessionToken (s : Store) (env : String) (sessionToken : String) :
    Except AppError UserProfile × Store :=
  ((getUserRecordBySessionToken s sessionToken).map (mapUserRecordToProfile env), s)

/-- `loginUser(email, passwordHash)` of the live user service: normalize the
email, select the user by the normalized email, compare the stored password
hash, then rotate the session token of that user. The freshly generated
random token is the explicit `newToken` argument. -/
def loginUser (s : Store) (env : String) (email passwordHash newToken : String) :
    Except AppError (String × UserProfile) × Store :=
  match normalizeEmail (some email) with
  | none => (.error (.auth "Invalid email or password"), s)
  | some ne =>
    if ne = "" then (.error (.auth "Invalid email or password"), s)
    else
      match maybeSingle (s.users.filter (fun u => u.email == ne)) "Failed to login" with
      | .error e => (.error e, s)
      | .ok none => (.error (.auth "Invalid email or password"), s)
      | .ok (some u) =>
        if u.password_hash ≠ passwordHash then
          (.error (.auth "Invalid email or password"), s)
        else
          (.ok (newToken, mapUserRecordToProfile env u),
           { s with users := s.users.map (fun v =>
              if v.email == ne then { v with session_token := some newToken } else v) })

/-! ## sql/user_metrics.sql and src/services/userMetricsService.ts -/

/-- The two `UPDATE` sub-statements of `follow_user_with_counts` applied to
one user row: `following_count := coalesce(following_count, 0) + cnt` when
the row is the follower, `follower_count := coalesce(follower_count, 0) + cnt`
when it is the followee. -/
def applyFollowInsertDelta (follower followee : String) (cnt : Nat)
    (u : UserRow) : UserRow :=
  let u₁ := if u.username == follower then
    { u with following_count := some (u.following_count.getD 0 + cnt) }
    else u
  if u₁.username == followee then
    { u₁ with follower_count := some (u₁.follower_count.getD 0 + cnt) }
    else u₁

/-- The two `UPDATE` sub-statements of `unfollow_user_with_counts` applied
to one user row: the counters become
`greatest(coalesce(_, 0) - cnt, 0)`, which is truncated subtraction. -/
def applyFollowDeleteDelta (follower followee : String) (cnt : Nat)
    (u : UserRow) : UserRow :=
  let u₁ := if u.username == follower then
    { u with following_count := some (u.following_count.getD 0 - cnt) }
    else u
  if u₁.username == followee then
    { u₁ with follower_count := some (u₁.follower_count.getD 0 - cnt) }
    else u₁

/-- `follow_user_with_counts`: insert the follow edge with
`on conflict do nothing`, then add the count of inserted rows (0 or 1) to
the following count of the follower and to the follower count of the
followee. The two `UPDATE` sub-statements target disjoint rows because the
service rejects self-follows before calling the routine. -/
def followUserWithCounts (s : Store) (follower followee : String) (now : Nat) :
    Store :=
  let conflict := s.follows.any (fun e =>
    e.follower_username == follower && e.followee_username == followee)
  let insertedCount : Nat := if conflict then 0 else 1
  let follows' := if conflict then s.follows
    else s.follows ++ [⟨follower, followee, now⟩]
  { s with follows := follows'
           users := s.users.map (applyFollowInsertDelta follower followee insertedCount) }

/-- `unfollow_user_with_counts`: delete the edge, then subtract the count of
deleted rows from both counters, floored at zero (`greatest(_ - _, 0)` is
exactly truncated subtraction on `Nat`). -/
def unfollowUserWithCounts (s : Store) (follower followee : String) : Store :=
  let deletedCount := (s.follows.filter (fun e =>
    e.follower_username == follower && e.followee_username == followee)).length
  let follows' := s.follows.filter (fun e =>
    !(e.follower_username == follower && e.followee_username == followee))
  { s with follows := follows'
           users := s.users.map (applyFollowDeleteDelta follower followee deletedCount) }

/-! ## src/services/followService.ts (the metrics-aware service wired to the
live router: it resolves the session, rejects self-targets, checks the
target exists on follow, and delegates to the atomic SQL routines) -/

/-- `FollowService.followUser(sessionToken, targetUsername)`. The returned
counter pair of the routine is discarded by the service. -/
def followUser (s : Store) (sessionToken targetUsername : String) (now : Nat) :
    Except AppError Unit × Store :=
  match getUserRecordBySessionToken s sessionToken with
  | .error e => (.error e, s)
  | .ok follower =>
    if follower.username == targetUsername then
      (.error (.http "Users cannot follow themselves" 400), s)
    else
      match maybeSingle (s.users.filter (fun u => u.username == targetUsername))
          "Failed to lookup target user" with
      | .error e => (.error e, s)
      | .ok none => (.error (.http "Target user not found" 404), s)
      | .ok (some _) =>
        (.ok (), followUserWithCounts s follower.username targetUsername now)

/-- `FollowService.unfollowUser(sessionToken, targetUsername)` (no target
existence check; deleting a non-existent edge affects zero rows). -/
def unfollowUser (s : Store) (sessionToken targetUsername : String) :
    Except AppError Unit × Store :=
  match getUserRecordBySessionToken s sessionToken with
  | .error e => (.error e, s)
  | .ok follower =>
    if follower.username == targetUsername then
      (.error (.http "Users cannot unfollow themselves" 400), s)
    else
      (.ok (), unfollowUserWithCounts s follower.username targetUsername)

/-! ## src/services/catLikeService.ts -/

/-- `ensureCatExists` (shared by the like and collection services): select
the cat by id with `maybeSingle`; a missing row is an
`HttpError("Cat not found", 404)`. -/
def ensureCatExists (s : Store) (catId : String) : Except AppError Unit :=
  match maybeSingle (s.cats.filter (fun c => c.id == catId)) "Failed to lookup cat" with
  | .error e => .error e
  | .ok none => .error (.http "Cat not found" 404)
  | .ok (some _) => .ok ()

/-- The `upsert` of a like edge with `onConflict: "cat_id,username"`: when
the key is already present the conflicting row is overwritten with the same
two column values, so the table is unchanged; otherwise the row is inserted. -/
def upsertLike (s : Store) (catId username : String) : Store :=
  if s.likes.any (fun l => l.cat_id == catId && l.username == username) then s
  else { s with likes := s.likes ++ [⟨catId, username⟩] }

/-- The `update({likes: totalLikes}).eq("id", catId)` write applied to one
cat row. -/
def setCatLikes (catId : String) (totalLikes : Nat) (c : CatRow) : CatRow :=
  if c.id == catId then { c with likes := some totalLikes } else c

/-- `refreshCatLikeCount` (private): recount the like edges of the cat with
a `COUNT(*)` aggregate, then write that recomputed total back into
`cats.likes`, and return it. -/
def refreshCatLikeCount (s : Store) (catId : String) : Nat × Store :=
  let totalLikes := (s.likes.filter (fun l => l.cat_id == catId)).length
  (totalLikes, { s with cats := s.cats.map (setCatLikes catId totalLikes) })

/-- `CatLikeService.likeCat(sessionToken, catId)`: resolve the session,
check the cat exists, upsert the like edge, then recount-and-write the like
counter. -/
def likeCat (s : Store) (sessionToken catId : String) :
    Except AppError Nat × Store :=
  match getUserRecordBySessionToken s sessionToken with
  | .error e => (.error e, s)
  | .ok user =>
    match ensureCatExists s catId with
    | .error e => (.error e, s)
    | .ok () =>
      let s₁ := upsertLike s catId user.username
      let r := refreshCatLikeCount s₁ catId
      (.ok r.1, r.2)

/-- `CatLikeService.unlikeCat(sessionToken, catId)`: resolve, check the cat,
delete the edge, then recount-and-write. -/
def unlikeCat (s : Store) (sessionToken catId : String) :
    Except AppError Nat × Store :=
  match getUserRecordBySessionToken s sessionToken with
  | .error e => (.error e, s)
  | .ok user =>
    match ensureCatExists s catId with
    | .error e => (.error e, s)
    | .ok () =>
      let s₁ := { s with likes := s.likes.filter (fun l =>
        !(l.cat_id == catId && l.username == user.username)) }
      let r := refreshCatLikeCount s₁ catId
      (.ok r.1, r.2)

/-! ## sql/cat_likes.sql (atomic routines; defined in the database but not
called by the service layer) -/

/-- The count of rows actually inserted by the
`insert ... on conflict (cat_id, username) do nothing` edge write of
`like_cat_with_count` — the store-reported affected-row count (0 or 1). -/
def likeEdgeInsertCount (s : Store) (catId username : String) : Nat :=
  if s.likes.any (fun l => l.cat_id == catId && l.username == username) then 0 else 1

/-- `like_cat_with_count(p_cat_id, p_username)`: insert the edge with
`do nothing` on conflict, then add the inserted-row count to
`coalesce(likes, 0)` of the cat, returning the updated counter (`none` when
no cat row was updated). -/
def likeCatWithCount (s : Store) (catId username : String) :
    Option Nat × Store :=
  let inserted := likeEdgeInsertCount s catId username
  let likes' := if inserted = 0 then s.likes else s.likes ++ [⟨catId, username⟩]
  let cats' := s.cats.map (fun c =>
    if c.id == catId then { c with likes := some (c.likes.getD 0 + inserted) } else c)
  ((s.cats.find? (fun c => c.id == catId)).map (fun c => c.likes.getD 0 + inserted),
   { s with likes := likes', cats := cats' })

/-! ## sql/collections.sql and src/services/collectionService.ts -/

/-- `getCollectionById`: select by id with `maybeSingle`; a missing row is
an `HttpError("Collection not found", 404)`. -/
def getCollectionById (s : Store) (collectionId : String) :
    Except AppError CollectionRow :=
  match maybeSingle (s.collections.filter (fun c => c.id == collectionId))
      "Failed to load collection" with
  | .error e => .error e
  | .ok none => .error (.http "Collection not found" 404)
  | .ok (some c) => .ok c

/-- `assertCollectionOwner` (private): load the collection, then compare
`owner_username` with the resolved username; a mismatch is an
`HttpError("Forbidden", 403)`. -/
def assertCollectionOwner (s : Store) (collectionId username : String) :
    Except AppError CollectionRow :=
  match getCollectionById s collectionId with
  | .error e => .error e
  | .ok record =>
    if record.owner_username ≠ username then .error (.http "Forbidden" 403)
    else .ok record

/-- The `UPDATE` sub-statement of `add_cat_to_collection_with_count`
applied to one collection row: `cat_count := cat_count + cnt` and
`updated_at := now()` for the row matching both id and owner. -/
def addCatCountDelta (collectionId ownerUsername : String) (cnt : Nat)
    (now : Nat) (c : CollectionRow) : CollectionRow :=
  if c.id == collectionId && c.owner_username == ownerUsername then
    { c with cat_count := c.cat_count + cnt, updated_at := now }
  else c

/-- The `UPDATE` sub-statement of `remove_cat_from_collection_with_count`
applied to one collection row: `cat_count := greatest(cat_count - cnt, 0)`
and `updated_at := now()` for the row matching both id and owner. -/
def subCatCountDelta (collectionId ownerUsername : String) (cnt : Nat)
    (now : Nat) (c : CollectionRow) : CollectionRow :=
  if c.id == collectionId && c.owner_username == ownerUsername then
    { c with cat_count := c.cat_count - cnt, updated_at := now }
  else c

/-- `add_cat_to_collection_with_count`: restricted to the collection row
matching both id and owner, insert the membership with `do nothing` on
conflict, then add the inserted-row count to `cat_count` and stamp
`updated_at`; returns the updated `cat_count`, or `none` when no collection
row matched. -/
def addCatToCollectionWithCount (s : Store)
    (collectionId catId ownerUsername : String) (now : Nat) :
    Option Nat × Store :=
  let target := s.collections.filter (fun c =>
    c.id == collectionId && c.owner_username == ownerUsername)
  match target with
  | [] => (none, s)
  | _ =>
    let conflict := s.collection_cats.any (fun m =>
      m.collection_id == collectionId && m.cat_id == catId)
    let insertedCount : Nat := if conflict then 0 else 1
    let memberships' := if conflict then s.collection_cats
      else s.collection_cats ++ [⟨collectionId, catId, now⟩]
    ((target.head?).map (fun c => c.cat_count + insertedCount),
     { s with collection_cats := memberships'
              collections := s.collections.map
                (addCatCountDelta collectionId ownerUsername insertedCount now) })

/-- `remove_cat_from_collection_with_count`: delete the membership of the
owner-checked collection, then subtract the deleted-row count from
`cat_count` with a floor at zero (`greatest`), stamping `updated_at`. -/
def removeCatFromCollectionWithCount (s : Store)
    (collectionId catId ownerUsername : String) (now : Nat) :
    Option Nat × Store :=
  let target := s.collections.filter (fun c =>
    c.id == collectionId && c.owner_username == ownerUsername)
  match target with
  | [] => (none, s)
  | _ =>
    let deletedCount := (s.collection_cats.filter (fun m =>
      m.collection_id == collectionId && m.cat_id == catId)).length
    let memberships' := s.collection_cats.filter (fun m =>
      !(m.collection_id == collectionId && m.cat_id == catId))
    ((target.head?).map (fun c => c.cat_count - deletedCount),
     { s with collection_cats := memberships'
              collections := s.collections.map
                (subCatCountDelta collectionId ownerUsername deletedCount now) })

/-- `CollectionService.addCatToCollection`: resolve the session, assert
ownership, check the cat exists, then call the atomic routine; a `none`
count (no collection row matched inside the routine) is a 404. -/
def addCatToCollection (s : Store) (sessionToken collectionId catId : String)
    (now : Nat) : Except AppError Nat × Store :=
  match getUserRecordBySessionToken s sessionToken with
  | .error e => (.error e, s)
  | .ok user =>
    match assertCollectionOwner s collectionId user.username with
    | .error e => (.error e, s)
    | .ok _ =>
      match ensureCatExists s catId with
      | .error e => (.error e, s)
      | .ok () =>
        let r := addCatToCollectionWithCount s collectionId catId user.username now
        match r.1 with
        | none => (.error (.http "Collection not found" 404), r.2)
        | some count => (.ok count, r.2)

/-- `CollectionService.removeCatFromCollection`: same gating as adding, with
the deleting routine. -/
def removeCatFromCollection (s : Store) (sessionToken collectionId catId : String)
    (now : Nat) : Except AppError Nat × Store :=
  match getUserRecordBySessionToken s sessionToken with
  | .error e => (.error e, s)
  | .ok user =>
    match assertCollectionOwner s collectionId user.username with
    | .error e => (.error e, s)
    | .ok _ =>
      match ensureCatExists s catId with
      | .error e => (.error e, s)
      | .ok () =>
        let r := removeCatFromCollectionWithCount s collectionId catId user.username now
        match r.1 with
        | none => (.error (.http "Collection not found" 404), r.2)
        | some count => (.ok count, r.2)

/-- `CollectionService.updateCollection`: resolve the session, assert
ownership, then update name/description and `updated_at` on the row matched
by id and owner. A violation of the per-owner name uniqueness surfaces as
Postgres error 23505, mapped to a `ConflictError`. -/
def updateCollection (s : Store) (sessionToken collectionId : String)
    (newName newDescription : Option String) (now : Nat) :
    Except AppError CollectionRow × Store :=
  match getUserRecordBySessionToken s sessionToken with
  | .error e => (.error e, s)
  | .ok user =>
    match assertCollectionOwner s collectionId user.username with
    | .error e => (.error e, s)
    | .ok _ =>
      let applyPayload : CollectionRow → CollectionRow := fun c =>
        let c₁ := { c with updated_at := now }
        let c₂ := match newName with
          | some n => { c₁ with name := jsTrim n }
          | none => c₁
        match newDescription with
        | some d => { c₂ with description := if jsTrim d = "" then none else some (jsTrim d) }
        | none => c₂
      let violatesUnique := s.collections.any (fun c =>
        c.owner_username == user.username && !(c.id == collectionId) &&
          match newName with
          | some n => c.name == jsTrim n
          | none => false)
      if violatesUnique then
        (.error (.conflict "A collection with this name already exists"), s)
      else
        let updatedRows := (s.collections.filter (fun c =>
          c.id == collectionId && c.owner_username == user.username)).map applyPayload
        match maybeSingle updatedRows "Failed to update collection" with
        | .error e => (.error e, s)
        | .ok none => (.error (.http "Collection not found" 404), s)
        | .ok (some updated) =>
          (.ok updated,
           { s with collections := s.collections.map (fun c =>
              if c.id == collectionId && c.owner_username == user.username then
                applyPayload c else c) })

/-- `CollectionService.deleteCollection`: resolve the session, then delete
the row matched by id AND owner (no separate ownership assertion), with the
membership rows cascading; when zero rows were deleted the result is
`HttpError("Collection not found or access denied", 404)`. -/
def deleteCollection (s : Store) (sessionToken collectionId : String) :
    Except AppError Unit × Store :=
  match getUserRecordBySessionToken s sessionToken with
  | .error e => (.error e, s)
  | .ok user =>
    let deleted := s.collections.filter (fun c =>
      c.id == collectionId && c.owner_username == user.username)
    let s' := { s with
      collections := s.collections.filter (fun c =>
        !(c.id == collectionId && c.owner_username == user.username))
      collection_cats := s.collection_cats.filter (fun m =>
        !(deleted.any (fun c => c.id == m.collection_id))) }
    match maybeSingle deleted "Failed to delete collection" with
    | .error e => (.error e, s)
    | .ok none => (.error (.http "Collection not found or access denied" 404), s')
    | .ok (some _) => (.ok (), s')

/-! ## Keyset pagination of the cat listing (src/routes/cats.ts)

The cursor wire codec is `base64(JSON.stringify({created_at, id}))`; encode
and decode are mutually inverse on well-formed payloads, so the cursor is
modeled as the payload itself. `created_at` is a Postgres timestamp
(chronologically ordered, modeled as `Nat`) and `id` a uuid column, ordered
lexicographically on its text here. -/

/-- Lexicographic order on character lists (the order Postgres applies to
the `id` column values of equal length). -/
def charListLt : List Char → List Char → Bool
  | [], [] => false
  | [], _ :: _ => true
  | _ :: _, [] => false
  | a :: as, b :: bs => a < b || (a == b && charListLt as bs)

/-- String comparison used for the `id.lt` filter and the `id` sort key. -/
def strLt (a b : String) : Bool := charListLt a.toList b.toList

/-- The decoded cursor payload `{created_at, id}`. -/
structure CursorPayload where
  created_at : Nat
  id : String
deriving Repr, DecidableEq

/-- `encodeCursor(row)`: the boundary values of the row. -/
def encodeCursor (row : CatRow) : CursorPayload :=
  ⟨row.created_at, row.id⟩

/-- `buildCursorClause(cursor)`, the filter
`or(and(created_at.lt.C), and(created_at.eq.C, id.lt.I))`: rows strictly
below the cursor in the composite (created_at, id) order. -/
def cursorClausePred (cursor : CursorPayload) (row : CatRow) : Bool :=
  decide (row.created_at < cursor.created_at) ||
    (row.created_at == cursor.created_at && strLt row.id cursor.id)

/-- Row `a` sorts at or before row `b` under
`ORDER BY created_at DESC, id DESC`. -/
def catKeyGe (a b : CatRow) : Bool :=
  decide (b.created_at < a.created_at) ||
    (a.created_at == b.created_at && !strLt a.id b.id)

/-- Insertion into a descending-sorted row list. -/
def orderedInsertDesc (a : CatRow) : List CatRow → List CatRow
  | [] => [a]
  | b :: t => if catKeyGe a b then a :: b :: t else b :: orderedInsertDesc a t

/-- The `ORDER BY created_at DESC, id DESC` applied by the store: with the
unique `id` as tie-break the sorted output is uniquely determined, so any
correct sort models it. -/
def sortCatsDesc (l : List CatRow) : List CatRow :=
  l.foldr orderedInsertDesc []

/-- `handleListCatsRequest` with no username filter, after validation: fetch
`limit + 1` rows ordered descending (filtered strictly below the cursor when
one is given); when `limit + 1` rows return, the page is the first `limit`
of them and the next cursor is encoded from `rows[limit]`, the row AFTER the
page; otherwise the next cursor is null. -/
def listCats (s : Store) (limit : Nat) (cursor : Option CursorPayload) :
    List CatRow × Option CursorPayload :=
  let source := match cursor with
    | none => s.cats
    | some c => s.cats.filter (cursorClausePred c)
  let rows := (sortCatsDesc source).take (limit + 1)
  let hasMore := decide (rows.length > limit)
  let visibleRows := if hasMore then rows.take limit else rows
  let nextCursor := if hasMore then (rows.get? limit).map encodeCursor else none
  (visibleRows, nextCursor)

/-- Walking the pages: call `listCats`, then repeat with the returned
cursor until it is null. Pages shrink the candidate set, so the store size
bounds the number of rounds; the fuel makes that bound explicit. -/
def walkPages (s : Store) (limit : Nat) :
    Nat → Option CursorPayload → List CatRow
  | 0, _ => []
  | fuel + 1, cursor =>
    let r := listCats s limit cursor
    match r.2 with
    | none => r.1
    | some c => r.1 ++ walkPages s limit fuel (some c)

/-! ## Session gating of the route handlers (src/routes/cats.ts,
src/routes/collections.ts, src/routes/comments.ts, src/routes/userRoutes.ts) -/

/-- The cat and collection handlers: any `validateSessionToken` error is
returned with status 401, before the store is touched. -/
def catsRouteSessionGate (sessionToken : Option String) : Option (String × Nat) :=
  (validateSessionToken sessionToken).map (fun e => (e, 401))

/-- The comment handlers: a missing token is a 401, any other validation
error (a present but non-64-hex token) a 400. -/
def commentsRouteSessionGate (sessionToken : Option String) : Option (String × Nat) :=
  (validateSessionToken sessionToken).map (fun e =>
    (e, if e = "Missing session_token" then 401 else 400))

/-- `handleUpdateUserRequest` and `handleChangePasswordRequest`: only the
presence of the token is checked before the service performs its store
lookup; a present malformed token passes this gate. -/
def updateUserSessionGate (sessionToken : Option String) : Option (String × Nat) :=
  if sessionToken = none ∨ sessionToken = some "" then
    some ("Missing session_token", 401)
  else none

/-- `resolveUsernameBySessionToken` (src/routes/cats.ts): the store lookup
a cat handler performs after its gate passes. -/
def resolveUsernameBySessionToken (s : Store) (sessionToken : String) :
    Except (String × Nat) String :=
  match maybeSingle (s.users.filter (fun u => u.session_token == some sessionToken))
      "Failed to validate session token" with
  | .error _ => .error ("Failed to validate session token", 500)
  | .ok none => .error ("Invalid session token", 401)
  | .ok (some u) => .ok u.username

/-- The authentication prefix of `handleCreateCatRequest`: gate on the
token shape (401 on failure), and only then resolve the username against
the store. -/
def handleCreateCatAuth (s : Store) (sessionToken : Option String) :
    Except (String × Nat) String :=
  match catsRouteSessionGate sessionToken with
  | some e => .error e
  | none => resolveUsernameBySessionToken s (sessionToken.getD "")

/-! ## Concrete fixtures used by witnesses and counterexamples -/

/-- A user row with a session token and zeroed counters. -/
def mkUser (username email tok : String) : UserRow :=
  { username := username, email := email, password_hash := "h1"
    session_token := some tok, bio := none, location := none, r2_avatar := none
    post_count := some 0, follower_count := some 0, following_count := some 0 }

/-- A content row at a given timestamp. -/
def mkCat (id : String) (createdAt : Nat) (likes : Option Nat) : CatRow :=
  { id := id, name := "cat", tags := [], username := "alice"
    description := none, r2_path := "cats/x.jpg", created_at := createdAt
    likes := likes }

/-- A collection owned by alice. -/
def demoCollection : CollectionRow :=
  { id := "col1", owner_username := "alice", name := "faves"
    description := none, cat_count := 0, created_at := 1, updated_at := 1 }

/-- Three content items at increasing timestamps (the scenario of the spec). -/
def paginationDemoStore : Store :=
  { users := [], follows := [], likes := []
    cats := [mkCat "a" 1 (some 0), mkCat "b" 2 (some 0), mkCat "c" 3 (some 0)]
    collections := [], collection_cats := [] }

/-- A store whose `likes` counter is out of sync with the like edges (five
counted, none stored), as a concurrent interleaving can produce. -/
def likeDemoStore : Store :=
  { users := [mkUser "alice" "alice@x.com" "tokA"], follows := [], likes := []
    cats := [mkCat "cat1" 1 (some 5)], collections := [], collection_cats := [] }

/-- Two users, a cat and a collection owned by alice. -/
def socialDemoStore : Store :=
  { users := [mkUser "alice" "alice@x.com" "tokA", mkUser "bobby" "bobby@x.com" "tokB"]
    follows := [], likes := [], cats := [mkCat "cat1" 1 (some 0)]
    collections := [demoCollection], collection_cats := [] }

/-! ## C3: the counter/edge equivalence invariant -/

/-- The number of follow edges whose followee is `x`. -/
def followerEdgeCount (s : Store) (x : String) : Nat :=
  (s.follows.filter (fun e => e.followee_username == x)).length

/-- The number of follow edges whose follower is `x`. -/
def followingEdgeCount (s : Store) (x : String) : Nat :=
  (s.follows.filter (fun e => e.follower_username == x)).length

/-- The counter/edge equivalence invariant: for every identity in the
store, the effective (`coalesce`-read) follower and following counters
equal the corresponding edge counts. -/
def followCountersMatch (s : Store) : Bool :=
  s.users.all (fun u =>
    u.follower_count.getD 0 == followerEdgeCount s u.username &&
    u.following_count.getD 0 == followingEdgeCount s u.username)

/-- A filter by a stronger predicate keeps at most as many elements. -/
theorem filter_mono_length {α : Type} (p q : α → Bool) (l : List α)
    (h : ∀ e ∈ l, q e = true → p e = true) :
    (l.filter q).length ≤ (l.filter p).length := by
  induction l with
  | nil => simp
  | cons a t ih =>
    have hqp := h a (List.mem_cons_self a t)
    have iht := ih (fun e he hq => h e (List.mem_cons_of_mem a he) hq)
    cases hq : q a with
    | true =>
      simp [List.filter_cons, hq, hqp hq]
      omega
    | false =>
      cases hp : p a with
      | true =>
        simp [List.filter_cons, hq, hp]
        omega
      | false =>
        simpa [List.filter_cons, hq, hp] using iht

/-- Removing the `q`-rows from the `p`-rows leaves `p`-count minus
`q`-count, when `q` implies `p`. -/
theorem filter_sub_length {α : Type} (p q : α → Bool) (l : List α)
    (h : ∀ e ∈ l, q e = true → p e = true) :
    (l.filter (fun e => p e && !(q e))).length =
      (l.filter p).length - (l.filter q).length := by
  induction l with
  | nil => rfl
  | cons a t ih =>
    have hqp := h a (List.mem_cons_self a t)
    have iht := ih (fun e he hq => h e (List.mem_cons_of_mem a he) hq)
    have hmono := filter_mono_length p q t
      (fun e he hq => h e (List.mem_cons_of_mem a he) hq)
    cases hq : q a with
    | true =>
      have hp : p a = true := hqp hq
      simp [List.filter_cons, hq, hp, Nat.succ_sub_succ, iht]
    | false =>
      cases hp : p a with
      | true =>
        simp [List.filter_cons, hq, hp, iht]
        omega
      | false =>
        simpa [List.filter_cons, hq, hp] using iht

/-- Appending one row changes a filter count by one when the row matches. -/
theorem length_filter_append_single {α : Type} (l : List α) (e : α) (p : α → Bool) :
    ((l ++ [e]).filter p).length = (l.filter p).length + (if p e then 1 else 0) := by
  cases he : p e with
  | true => simp [List.filter_append, List.filter_cons, he]
  | false => simp [List.filter_append, List.filter_cons, he]

/-- The counter updates of the follow routine touch no identifying field. -/
theorem applyFollowInsertDelta_fields (A B : String) (cnt : Nat) (u : UserRow) :
    (applyFollowInsertDelta A B cnt u).username = u.username ∧
    (applyFollowInsertDelta A B cnt u).session_token = u.session_token ∧
    (applyFollowInsertDelta A B cnt u).email = u.email := by
  simp only [applyFollowInsertDelta]
  split <;> split <;> exact ⟨rfl, rfl, rfl⟩

/-- The counter updates of the unfollow routine touch no identifying field. -/
theorem applyFollowDeleteDelta_fields (A B : String) (cnt : Nat) (u : UserRow) :
    (applyFollowDeleteDelta A B cnt u).username = u.username ∧
    (applyFollowDeleteDelta A B cnt u).session_token = u.session_token ∧
    (applyFollowDeleteDelta A B cnt u).email = u.email := by
  simp only [applyFollowDeleteDelta]
  split <;> split <;> exact ⟨rfl, rfl, rfl⟩

/-- Effective counters after the follow-routine update of one row. -/
theorem applyFollowInsertDelta_counters (A B : String) (hAB : A ≠ B) (cnt : Nat)
    (u : UserRow) :
    (applyFollowInsertDelta A B cnt u).follower_count.getD 0 =
      u.follower_count.getD 0 + (if u.username = B then cnt else 0) ∧
    (applyFollowInsertDelta A B cnt u).following_count.getD 0 =
      u.following_count.getD 0 + (if u.username = A then cnt else 0) := by
  by_cases hA : u.username = A
  · have hB : u.username ≠ B := fun h => hAB (hA ▸ h)
    simp [applyFollowInsertDelta, hA, hB, beq_iff_eq, hAB]
  · have hBA : B ≠ A := fun h => hAB h.symm
    by_cases hB : u.username = B
    · simp [applyFollowInsertDelta, hA, hB, beq_iff_eq, hAB, hBA]
    · simp [applyFollowInsertDelta, hA, hB, beq_iff_eq, hAB, hBA]

/-- Effective counters after the unfollow-routine update of one row. -/
theorem applyFollowDeleteDelta_counters (A B : String) (hAB : A ≠ B) (cnt : Nat)
    (u : UserRow) :
    (applyFollowDeleteDelta A B cnt u).follower_count.getD 0 =
      u.follower_count.getD 0 - (if u.username = B then cnt else 0) ∧
    (applyFollowDeleteDelta A B cnt u).following_count.getD 0 =
      u.following_count.getD 0 - (if u.username = A then cnt else 0) := by
  by_cases hA : u.username = A
  · have hB : u.username ≠ B := fun h => hAB (hA ▸ h)
    simp [applyFollowDeleteDelta, hA, hB, beq_iff_eq, hAB]
  · have hBA : B ≠ A := fun h => hAB h.symm
    by_cases hB : u.username = B
    · simp [applyFollowDeleteDelta, hA, hB, beq_iff_eq, hAB, hBA]
    · simp [applyFollowDeleteDelta, hA, hB, beq_iff_eq, hAB, hBA]



/-- The atomic follow routine preserves the counter/edge equivalence. -/
theorem followUserWithCounts_preserves (s : Store) (A B : String) (now : Nat)
    (hAB : A ≠ B) (h : followCountersMatch s = true) :
    followCountersMatch (followUserWithCounts s A B now) = true := by
  rw [followCountersMatch, List.all_eq_true] at h
  rw [followCountersMatch, List.all_eq_true]
  intro x hx
  cases hc : s.follows.any (fun e =>
      e.follower_username == A && e.followee_username == B) with
  | true =>
    simp only [followUserWithCounts, hc, if_true] at hx ⊢
    rcases List.mem_map.mp hx with ⟨u, hu, rfl⟩
    have hcnt := applyFollowInsertDelta_counters A B hAB 0 u
    have hfields := applyFollowInsertDelta_fields A B 0 u
    have hu' := h u hu
    rw [Bool.and_eq_true, beq_iff_eq, beq_iff_eq] at hu'
    rw [Bool.and_eq_true, beq_iff_eq, beq_iff_eq]
    simp only [followerEdgeCount, followingEdgeCount] at hu' ⊢
    rw [hcnt.1, hcnt.2, hfields.1]
    constructor
    · rw [hu'.1]
      split <;> rfl
    · rw [hu'.2]
      split <;> rfl
  | false =>
    have hone : (if (false = true) then (0 : Nat) else 1) = 1 := rfl
    have happ : (if (false = true) then s.follows
        else s.follows ++ [(⟨A, B, now⟩ : FollowRow)]) = s.follows ++ [⟨A, B, now⟩] := rfl
    simp only [followUserWithCounts, hc, hone, happ] at hx ⊢
    rcases List.mem_map.mp hx with ⟨u, hu, rfl⟩
    have hcnt := applyFollowInsertDelta_counters A B hAB 1 u
    have hfields := applyFollowInsertDelta_fields A B 1 u
    have hu' := h u hu
    rw [Bool.and_eq_true, beq_iff_eq, beq_iff_eq] at hu'
    rw [Bool.and_eq_true, beq_iff_eq, beq_iff_eq]
    simp only [followerEdgeCount, followingEdgeCount] at hu' ⊢
    rw [hcnt.1, hcnt.2, hfields.1]
    rw [length_filter_append_single, length_filter_append_single]
    constructor
    · rw [hu'.1]
      by_cases hy : u.username = B
      · simp [hy]
      · have : (B == u.username) = false := beq_eq_false_iff_ne.mpr (fun hh => hy hh.symm)
        simp [hy, this]
    · rw [hu'.2]
      by_cases hy : u.username = A
      · simp [hy]
      · have : (A == u.username) = false := beq_eq_false_iff_ne.mpr (fun hh => hy hh.symm)
        simp [hy, this]



/-- The atomic unfollow routine preserves the counter/edge equivalence. -/
theorem unfollowUserWithCounts_preserves (s : Store) (A B : String)
    (hAB : A ≠ B) (h : followCountersMatch s = true) :
    followCountersMatch (unfollowUserWithCounts s A B) = true := by
  rw [followCountersMatch, List.all_eq_true] at h
  rw [followCountersMatch, List.all_eq_true]
  intro x hx
  simp only [unfollowUserWithCounts] at hx ⊢
  rcases List.mem_map.mp hx with ⟨u, hu, rfl⟩
  have hpairB : ∀ e ∈ s.follows,
      (e.follower_username == A && e.followee_username == B) = true →
      (e.followee_username == B) = true :=
    fun e _ hq => (Bool.and_eq_true _ _ |>.mp hq).2
  have hpairA : ∀ e ∈ s.follows,
      (e.follower_username == A && e.followee_username == B) = true →
      (e.follower_username == A) = true :=
    fun e _ hq => (Bool.and_eq_true _ _ |>.mp hq).1
  have hcnt := applyFollowDeleteDelta_counters A B hAB
    ((s.follows.filter (fun e =>
      e.follower_username == A && e.followee_username == B)).length) u
  have hfields := applyFollowDeleteDelta_fields A B
    ((s.follows.filter (fun e =>
      e.follower_username == A && e.followee_username == B)).length) u
  have hu' := h u hu
  rw [Bool.and_eq_true, beq_iff_eq, beq_iff_eq] at hu'
  rw [Bool.and_eq_true, beq_iff_eq, beq_iff_eq]
  simp only [followerEdgeCount, followingEdgeCount] at hu' ⊢
  rw [hcnt.1, hcnt.2, hfields.1, List.filter_filter, List.filter_filter]
  constructor
  · by_cases hy : u.username = B
    · rw [if_pos hy, hu'.1, hy]
      exact (filter_sub_length _ _ s.follows hpairB).symm
    · rw [if_neg hy, hu'.1, Nat.sub_zero]
      have hcongr : (s.follows.filter (fun a =>
          a.followee_username == u.username &&
          !(a.follower_username == A && a.followee_username == B))) =
          s.follows.filter (fun a => a.followee_username == u.username) := by
        apply List.filter_congr
        intro e he
        cases hef : (e.followee_username == u.username) with
        | true =>
          have heq : e.followee_username = u.username := beq_iff_eq.mp hef
          have hp : (e.follower_username == A && e.followee_username == B) = false := by
            cases hb : (e.followee_username == B) with
            | false => simp [hb]
            | true => exact absurd (heq.symm.trans (beq_iff_eq.mp hb)) hy
          simp [hp, hef]
        | false => simp [hef]
      rw [hcongr]
  · by_cases hy : u.username = A
    · rw [if_pos hy, hu'.2, hy]
      exact (filter_sub_length _ _ s.follows hpairA).symm
    · rw [if_neg hy, hu'.2, Nat.sub_zero]
      have hcongr : (s.follows.filter (fun a =>
          a.follower_username == u.username &&
          !(a.follower_username == A && a.followee_username == B))) =
          s.follows.filter (fun a => a.follower_username == u.username) := by
        apply List.filter_congr
        intro e he
        cases hef : (e.follower_username == u.username) with
        | true =>
          have heq : e.follower_username = u.username := beq_iff_eq.mp hef
          have hp : (e.follower_username == A && e.followee_username == B) = false := by
            cases hb : (e.follower_username == A) with
            | false => simp [hb]
            | true => exact absurd (heq.symm.trans (beq_iff_eq.mp hb)) hy
          simp [hp, hef]
        | false => simp [hef]
      rw [hcongr]



/-- A `followUser` call — failing or succeeding — preserves the
counter/edge equivalence. -/
theorem followUser_preserves (s : Store) (tok target : String) (now : Nat)
    (h : followCountersMatch s = true) :
    followCountersMatch (followUser s tok target now).2 = true := by
  unfold followUser
  cases hr : getUserRecordBySessionToken s tok with
  | error e => exact h
  | ok u =>
    by_cases hself : (u.username == target) = true
    · simp only [hself, if_true]
      exact h
    · rw [Bool.not_eq_true] at hself
      simp only [hself]
      cases hm : maybeSingle (s.users.filter (fun v => v.username == target))
          "Failed to lookup target user" with
      | error e => simpa [hself] using h
      | ok o =>
        cases o with
        | none => simpa [hself] using h
        | some w =>
          simp only [hself, Bool.false_eq_true, if_false]
          exact followUserWithCounts_preserves s u.username target now
            (beq_eq_false_iff_ne.mp hself) h



/-- An `unfollowUser` call — failing or succeeding — preserves the
counter/edge equivalence. -/
theorem unfollowUser_preserves (s : Store) (tok target : String)
    (h : followCountersMatch s = true) :
    followCountersMatch (unfollowUser s tok target).2 = true := by
  unfold unfollowUser
  cases hr : getUserRecordBySessionToken s tok with
  | error e => exact h
  | ok u =>
    by_cases hself : (u.username == target) = true
    · simp only [hself, if_true]
      exact h
    · rw [Bool.not_eq_true] at hself
      simp only [hself, Bool.false_eq_true, if_false]
      exact unfollowUserWithCounts_preserves s u.username target
        (beq_eq_false_iff_ne.mp hself) h

/-- One call of the follow service. -/
inductive FollowOp where
  | follow (sessionToken targetUsername : String) (followedAt : Nat)
  | unfollow (sessionToken targetUsername : String)
deriving Repr, DecidableEq

/-- The store after a follow-service call (its result is discarded). -/
def applyFollowOp (s : Store) : FollowOp → Store
  | .follow tok target now => (followUser s tok target now).2
  | .unfollow tok target => (unfollowUser s tok target).2

/-- C3: starting from a store whose counters match the edge counts, after
any finite sequence of `followUser`/`unfollowUser` calls has completed,
`follower_count(X)` equals the number of follow edges whose followee is `X`
and `following_count(X)` the number whose follower is `X`, for every
identity `X`. -/
theorem follow_counters_match_after_ops (ops : List FollowOp) (s : Store)
    (h : followCountersMatch s = true) :
    followCountersMatch (ops.foldl applyFollowOp s) = true := by
  induction ops generalizing s with
  | nil => exact h
  | cons op t ih =>
    rw [List.foldl_cons]
    cases op with
    | follow tok target now =>
      exact ih _ (followUser_preserves s tok target now h)
    | unfollow tok target =>
      exact ih _ (unfollowUser_preserves s tok target h)

/-- Witness for C3: six concrete calls — duplicates, an unfollow of a
never-followed pair and an unfollow of a missing user among them — keep
the counters of a concrete two-user store exact. -/
theorem follow_counters_match_witness :
    followCountersMatch socialDemoStore = true ∧
    followCountersMatch
      ([FollowOp.follow "tokA" "bobby" 3, FollowOp.follow "tokA" "bobby" 4,
        FollowOp.follow "tokB" "alice" 5, FollowOp.unfollow "tokA" "bobby",
        FollowOp.unfollow "tokA" "bobby", FollowOp.unfollow "tokA" "nosuch"
       ].foldl applyFollowOp socialDemoStore) = true :=
  ⟨by decide, follow_counters_match_after_ops _ socialDemoStore (by decide)⟩

/-! ## C4: idempotence of the edge mutations -/

/-- Pointwise-equal maps over the same list agree. -/
theorem map_congr_mem {α β : Type} (l : List α) (f g : α → β)
    (h : ∀ x ∈ l, f x = g x) : l.map f = l.map g := by
  induction l with
  | nil => rfl
  | cons a t ih =>
    simp only [List.map_cons, h a (List.mem_cons_self a t)]
    rw [ih (fun x hx => h x (List.mem_cons_of_mem a hx))]

/-- A map that fixes every member of a list is the identity on it. -/
theorem map_id_mem {α : Type} (l : List α) (f : α → α)
    (h : ∀ x ∈ l, f x = x) : l.map f = l := by
  induction l with
  | nil => rfl
  | cons a t ih =>
    simp only [List.map_cons, h a (List.mem_cons_self a t)]
    rw [ih (fun x hx => h x (List.mem_cons_of_mem a hx))]

/-- A row update that does not touch the filtered column commutes with the
filter. -/
theorem filter_map_of_pred_preserved {α : Type} (f : α → α) (p : α → Bool) (l : List α)
    (hf : ∀ v ∈ l, p (f v) = p v) :
    (l.map f).filter p = (l.filter p).map f := by
  rw [List.filter_map]
  congr 1
  apply List.filter_congr
  intro x hx
  exact hf x hx

/-- Filtering twice by the same predicate filters once. -/
theorem filter_idem {α : Type} (p : α → Bool) (l : List α) :
    (l.filter p).filter p = l.filter p := by
  rw [List.filter_filter]
  apply List.filter_congr
  intro x _
  exact Bool.and_self (p x)

/-- After deleting the matching rows, no matching row remains. -/
theorem filter_not_self {α : Type} (p : α → Bool) (l : List α) :
    (l.filter (fun e => !(p e))).filter p = [] := by
  rw [List.filter_filter, List.filter_eq_nil_iff]
  intro a _
  cases h : p a <;> simp [h]

/-- Session resolution succeeds with `u` exactly when `u` is the unique
holder of the token. -/
theorem getUserRecord_ok_iff (s : Store) (tok : String) (u : UserRow) :
    getUserRecordBySessionToken s tok = .ok u ↔
      s.users.filter (fun v => v.session_token == some tok) = [u] := by
  constructor
  · intro h
    rcases hf : s.users.filter (fun v => v.session_token == some tok) with _ | ⟨a, _ | ⟨b, t⟩⟩
    · rw [getUserRecordBySessionToken, hf] at h
      simp [maybeSingle] at h
    · rw [getUserRecordBySessionToken, hf] at h
      simp only [maybeSingle] at h
      cases h
      exact hf
    · rw [getUserRecordBySessionToken, hf] at h
      simp [maybeSingle] at h
  · intro h
    rw [getUserRecordBySessionToken, h]
    rfl



/-- A zero-delta counter update is absorbed by a preceding update. -/
theorem applyFollowInsertDelta_reapply_zero (A B : String) (cnt : Nat) (v : UserRow) :
    applyFollowInsertDelta A B 0 (applyFollowInsertDelta A B cnt v) =
      applyFollowInsertDelta A B cnt v := by
  unfold applyFollowInsertDelta
  by_cases hA : (v.username == A) = true <;> by_cases hB : (v.username == B) = true <;>
    simp [hA, hB]

/-- A zero-delta counter decrement is absorbed by a preceding decrement. -/
theorem applyFollowDeleteDelta_reapply_zero (A B : String) (cnt : Nat) (v : UserRow) :
    applyFollowDeleteDelta A B 0 (applyFollowDeleteDelta A B cnt v) =
      applyFollowDeleteDelta A B cnt v := by
  unfold applyFollowDeleteDelta
  by_cases hA : (v.username == A) = true <;> by_cases hB : (v.username == B) = true <;>
    simp [hA, hB]

/-- Inversion of a successful `followUser` call. -/
theorem followUser_ok_elim (s : Store) (tok B : String) (now : Nat)
    (h : (followUser s tok B now).1 = .ok ()) :
    ∃ u w, getUserRecordBySessionToken s tok = .ok u ∧ (u.username == B) = false ∧
      s.users.filter (fun v => v.username == B) = [w] ∧
      (followUser s tok B now).2 = followUserWithCounts s u.username B now := by
  rcases hr : getUserRecordBySessionToken s tok with e | u
  · rw [followUser] at h
    rw [hr] at h
    simp at h
  · by_cases hself : (u.username == B) = true
    · rw [followUser] at h
      rw [hr] at h
      simp [hself] at h
    · rw [Bool.not_eq_true] at hself
      rcases hf : s.users.filter (fun v => v.username == B) with _ | ⟨w, _ | ⟨w2, t⟩⟩
      · rw [followUser] at h
        rw [hr, hf] at h
        simp [hself, maybeSingle] at h
      · refine ⟨u, w, rfl, hself, hf, ?_⟩
        rw [followUser]
        rw [hr, hf]
        simp [hself, maybeSingle]
      · rw [followUser] at h
        rw [hr, hf] at h
        simp [hself, maybeSingle] at h



/-- Rewriting two fields of a store with their own values is the identity. -/
theorem store_update_eta2 (x : Store) (F : List FollowRow) (U : List UserRow)
    (hF : F = x.follows) (hU : U = x.users) :
    ({ x with follows := F, users := U } : Store) = x := by
  subst hF
  subst hU
  rfl

/-- The user table after the follow routine is a mapped counter update. -/
theorem followUserWithCounts_users (s : Store) (A B : String) (now : Nat) :
    ∃ cnt, (followUserWithCounts s A B now).users =
      s.users.map (applyFollowInsertDelta A B cnt) :=
  ⟨_, rfl⟩

/-- After the follow routine the edge is present. -/
theorem followUserWithCounts_edge_any (s : Store) (A B : String) (now : Nat) :
    ((followUserWithCounts s A B now).follows.any (fun e =>
      e.follower_username == A && e.followee_username == B)) = true := by
  unfold followUserWithCounts
  cases hc : s.follows.any (fun e =>
      e.follower_username == A && e.followee_username == B) with
  | true => simp [hc]
  | false => simp [hc, List.any_append]

/-- Re-running the follow routine hits the conflict branch and changes
nothing. -/
theorem followUserWithCounts_reapply (s : Store) (A B : String) (now₁ now₂ : Nat) :
    followUserWithCounts (followUserWithCounts s A B now₁) A B now₂ =
      followUserWithCounts s A B now₁ := by
  have hedge := followUserWithCounts_edge_any s A B now₁
  conv_lhs => rw [followUserWithCounts]
  simp only [hedge, if_true]
  apply store_update_eta2
  · rfl
  · show List.map (applyFollowInsertDelta A B 0)
      (followUserWithCounts s A B now₁).users = _
    obtain ⟨cnt, husers⟩ := followUserWithCounts_users s A B now₁
    rw [husers, List.map_map]
    apply map_congr_mem
    intro x _
    exact applyFollowInsertDelta_reapply_zero A B cnt x



/-- A second identical `followUser` call leaves the store unchanged. -/
theorem followUser_idem (s : Store) (tok B : String) (now₁ now₂ : Nat)
    (h : (followUser s tok B now₁).1 = .ok ()) :
    (followUser ((followUser s tok B now₁).2) tok B now₂).2 =
      (followUser s tok B now₁).2 := by
  obtain ⟨u, w, hr, hself, hf, hstore⟩ := followUser_ok_elim s tok B now₁ h
  rw [hstore]
  obtain ⟨cnt, husers⟩ := followUserWithCounts_users s u.username B now₁
  have hru : s.users.filter (fun v => v.session_token == some tok) = [u] :=
    (getUserRecord_ok_iff s tok u).mp hr
  have hres1 : getUserRecordBySessionToken (followUserWithCounts s u.username B now₁) tok =
      .ok (applyFollowInsertDelta u.username B cnt u) := by
    apply (getUserRecord_ok_iff _ tok _).mpr
    rw [husers, filter_map_of_pred_preserved, hru]
    · rfl
    · intro v _
      rw [(applyFollowInsertDelta_fields u.username B cnt v).2.1]
  have hself1 : ((applyFollowInsertDelta u.username B cnt u).username == B) = false := by
    rw [(applyFollowInsertDelta_fields u.username B cnt u).1]
    exact hself
  have htar : (followUserWithCounts s u.username B now₁).users.filter
      (fun v => v.username == B) = [applyFollowInsertDelta u.username B cnt w] := by
    rw [husers, filter_map_of_pred_preserved, hf]
    · rfl
    · intro v _
      rw [(applyFollowInsertDelta_fields u.username B cnt v).1]
  rw [followUser]
  rw [hres1, htar]
  simp only [hself1, Bool.false_eq_true, if_false, maybeSingle]
  rw [(applyFollowInsertDelta_fields u.username B cnt u).1]
  exact followUserWithCounts_reapply s u.username B now₁ now₂



/-- Inversion of a successful `unfollowUser` call. -/
theorem unfollowUser_ok_elim (s : Store) (tok B : String)
    (h : (unfollowUser s tok B).1 = .ok ()) :
    ∃ u, getUserRecordBySessionToken s tok = .ok u ∧ (u.username == B) = false ∧
      (unfollowUser s tok B).2 = unfollowUserWithCounts s u.username B := by
  rcases hr : getUserRecordBySessionToken s tok with e | u
  · rw [unfollowUser] at h
    rw [hr] at h
    simp at h
  · by_cases hself : (u.username == B) = true
    · rw [unfollowUser] at h
      rw [hr] at h
      simp [hself] at h
    · rw [Bool.not_eq_true] at hself
      refine ⟨u, rfl, hself, ?_⟩
      rw [unfollowUser]
      rw [hr]
      simp [hself]

/-- The user table after the unfollow routine is a mapped counter update. -/
theorem unfollowUserWithCounts_users (s : Store) (A B : String) :
    (unfollowUserWithCounts s A B).users =
      s.users.map (applyFollowDeleteDelta A B
        ((s.follows.filter (fun e =>
          e.follower_username == A && e.followee_username == B)).length)) :=
  rfl

/-- Re-running the unfollow routine deletes zero rows and changes nothing. -/
theorem unfollowUserWithCounts_reapply (s : Store) (A B : String) :
    unfollowUserWithCounts (unfollowUserWithCounts s A B) A B =
      unfollowUserWithCounts s A B := by
  have hzero : ((unfollowUserWithCounts s A B).follows.filter (fun e =>
      e.follower_username == A && e.followee_username == B)) = [] := by
    show ((s.follows.filter _).filter _) = []
    exact filter_not_self _ s.follows
  conv_lhs => rw [unfollowUserWithCounts]
  rw [hzero]
  apply store_update_eta2
  · show (unfollowUserWithCounts s A B).follows.filter _ = _
    show ((s.follows.filter _).filter _) = _
    exact filter_idem _ s.follows
  · show List.map (applyFollowDeleteDelta A B ([] : List FollowRow).length) (unfollowUserWithCounts s A B).users = _
    rw [unfollowUserWithCounts_users, List.map_map]
    apply map_congr_mem
    intro x _
    simpa using applyFollowDeleteDelta_reapply_zero A B _ x

/-- A second identical `unfollowUser` call leaves the store unchanged. -/
theorem unfollowUser_idem (s : Store) (tok B : String)
    (h : (unfollowUser s tok B).1 = .ok ()) :
    (unfollowUser ((unfollowUser s tok B).2) tok B).2 = (unfollowUser s tok B).2 := by
  obtain ⟨u, hr, hself, hstore⟩ := unfollowUser_ok_elim s tok B h
  rw [hstore]
  have hru : s.users.filter (fun v => v.session_token == some tok) = [u] :=
    (getUserRecord_ok_iff s tok u).mp hr
  have hres1 : getUserRecordBySessionToken (unfollowUserWithCounts s u.username B) tok =
      .ok (applyFollowDeleteDelta u.username B
        ((s.follows.filter (fun e =>
          e.follower_username == u.username && e.followee_username == B)).length) u) := by
    apply (getUserRecord_ok_iff _ tok _).mpr
    rw [unfollowUserWithCounts_users, filter_map_of_pred_preserved, hru]
    · rfl
    · intro v _
      rw [(applyFollowDeleteDelta_fields u.username B _ v).2.1]
  have hself1 : ((applyFollowDeleteDelta u.username B
      ((s.follows.filter (fun e =>
        e.follower_username == u.username && e.followee_username == B)).length)
      u).username == B) = false := by
    rw [(applyFollowDeleteDelta_fields u.username B _ u).1]
    exact hself
  rw [unfollowUser]
  rw [hres1]
  simp only [hself1, Bool.false_eq_true, if_false]
  rw [(applyFollowDeleteDelta_fields u.username B _ u).1]
  exact unfollowUserWithCounts_reapply s u.username B



/-- Rewriting the cat table with its own value is the identity. -/
theorem store_update_cats_eta (x : Store) (C : List CatRow) (hC : C = x.cats) :
    ({ x with cats := C } : Store) = x := by
  subst hC
  rfl

/-- Rewriting likes and cats with their own values is the identity. -/
theorem store_update_likes_cats_eta (x : Store) (L : List LikeRow) (C : List CatRow)
    (hL : L = x.likes) (hC : C = x.cats) :
    ({ x with likes := L, cats := C } : Store) = x := by
  subst hL
  subst hC
  rfl

theorem upsertLike_users (s : Store) (c n : String) : (upsertLike s c n).users = s.users := by
  unfold upsertLike
  split <;> rfl

theorem upsertLike_cats (s : Store) (c n : String) : (upsertLike s c n).cats = s.cats := by
  unfold upsertLike
  split <;> rfl

theorem upsertLike_likes_any (s : Store) (c n : String) :
    ((upsertLike s c n).likes.any (fun l => l.cat_id == c && l.username == n)) = true := by
  unfold upsertLike
  cases hc : s.likes.any (fun l => l.cat_id == c && l.username == n) with
  | true => simp [hc]
  | false => simp [hc, List.any_append]

theorem upsertLike_of_any (s : Store) (c n : String)
    (h : (s.likes.any (fun l => l.cat_id == c && l.username == n)) = true) :
    upsertLike s c n = s := by
  unfold upsertLike
  simp [h]

theorem setCatLikes_id (c : String) (t : Nat) (x : CatRow) :
    (setCatLikes c t x).id = x.id := by
  unfold setCatLikes
  split <;> rfl

theorem setCatLikes_idem (c : String) (t : Nat) (x : CatRow) :
    setCatLikes c t (setCatLikes c t x) = setCatLikes c t x := by
  unfold setCatLikes
  by_cases h : (x.id == c) = true <;> simp [h]

/-- The cat existence check succeeds exactly when the id matches a unique
row. -/
theorem ensureCat_ok_iff (s : Store) (catId : String) :
    ensureCatExists s catId = .ok () ↔
      ∃ c, s.cats.filter (fun x => x.id == catId) = [c] := by
  constructor
  · intro h
    rcases hf : s.cats.filter (fun x => x.id == catId) with _ | ⟨c, _ | ⟨c2, t⟩⟩
    · rw [ensureCatExists, hf] at h
      simp [maybeSingle] at h
    · exact ⟨c, hf⟩
    · rw [ensureCatExists, hf] at h
      simp [maybeSingle] at h
  · intro ⟨c, hf⟩
    rw [ensureCatExists, hf]
    rfl

/-- Session resolution reads only the user table. -/
theorem getUserRecord_eq_of_users (s s' : Store) (tok : String)
    (h : s'.users = s.users) :
    getUserRecordBySessionToken s' tok = getUserRecordBySessionToken s tok := by
  unfold getUserRecordBySessionToken
  rw [h]

/-- The cat existence check reads only the cat table. -/
theorem ensureCat_eq_of_cats (s s' : Store) (catId : String) (h : s'.cats = s.cats) :
    ensureCatExists s' catId = ensureCatExists s catId := by
  unfold ensureCatExists
  rw [h]

/-- Inversion of a successful `likeCat` call. -/
theorem likeCat_ok_elim (s : Store) (tok catId : String)
    (h : ∃ n, (likeCat s tok catId).1 = .ok n) :
    ∃ u, getUserRecordBySessionToken s tok = .ok u ∧
      ensureCatExists s catId = .ok () ∧
      (likeCat s tok catId).2 =
        (refreshCatLikeCount (upsertLike s catId u.username) catId).2 := by
  obtain ⟨n, h⟩ := h
  rcases hr : getUserRecordBySessionToken s tok with e | u
  · rw [likeCat] at h
    rw [hr] at h
    simp at h
  · rcases he : ensureCatExists s catId with e | unitv
    · rw [likeCat] at h
      rw [hr, he] at h
      simp at h
    · cases unitv
      refine ⟨u, rfl, rfl, ?_⟩
      simp only [likeCat, hr, he]

/-- A second identical `likeCat` call leaves the store unchanged: the
upsert hits the conflict and the recount recomputes the same total. -/
theorem likeCat_idem (s : Store) (tok catId : String)
    (h : ∃ n, (likeCat s tok catId).1 = .ok n) :
    (likeCat ((likeCat s tok catId).2) tok catId).2 = (likeCat s tok catId).2 := by
  obtain ⟨u, hr, he, hstore⟩ := likeCat_ok_elim s tok catId h
  rw [hstore]
  have husers : ((refreshCatLikeCount (upsertLike s catId u.username) catId).2).users
      = s.users := by
    show (upsertLike s catId u.username).users = s.users
    exact upsertLike_users s catId u.username
  have hlikes : ((refreshCatLikeCount (upsertLike s catId u.username) catId).2).likes
      = (upsertLike s catId u.username).likes := rfl
  have hres1 : getUserRecordBySessionToken
      ((refreshCatLikeCount (upsertLike s catId u.username) catId).2) tok = .ok u := by
    rw [getUserRecord_eq_of_users s _ tok husers]
    exact hr
  obtain ⟨c, hc⟩ := (ensureCat_ok_iff s catId).mp he
  have hcats1 : ((refreshCatLikeCount (upsertLike s catId u.username) catId).2).cats
      = s.cats.map (setCatLikes catId
          (((upsertLike s catId u.username).likes.filter
            (fun l => l.cat_id == catId)).length)) := by
    show (upsertLike s catId u.username).cats.map _ = _
    rw [upsertLike_cats]
  have hens1 : ensureCatExists
      ((refreshCatLikeCount (upsertLike s catId u.username) catId).2) catId = .ok () := by
    apply (ensureCat_ok_iff _ catId).mpr
    refine ⟨setCatLikes catId
      (((upsertLike s catId u.username).likes.filter
        (fun l => l.cat_id == catId)).length) c, ?_⟩
    rw [hcats1, filter_map_of_pred_preserved, hc]
    · rfl
    · intro v _
      rw [setCatLikes_id]
  have hup1 : upsertLike ((refreshCatLikeCount (upsertLike s catId u.username) catId).2)
      catId u.username = (refreshCatLikeCount (upsertLike s catId u.username) catId).2 := by
    apply upsertLike_of_any
    rw [hlikes]
    exact upsertLike_likes_any s catId u.username
  rw [likeCat]
  rw [hres1, hens1]
  dsimp only
  rw [hup1]
  show ({ (refreshCatLikeCount (upsertLike s catId u.username) catId).2 with
      cats := _ } : Store) = _
  apply store_update_cats_eta
  rw [hlikes, hcats1, List.map_map]
  apply map_congr_mem
  intro x _
  exact setCatLikes_idem catId _ x



/-- Inversion of a successful `unlikeCat` call. -/
theorem unlikeCat_ok_elim (s : Store) (tok catId : String)
    (h : ∃ n, (unlikeCat s tok catId).1 = .ok n) :
    ∃ u, getUserRecordBySessionToken s tok = .ok u ∧
      ensureCatExists s catId = .ok () ∧
      (unlikeCat s tok catId).2 =
        (refreshCatLikeCount { s with likes := s.likes.filter (fun l =>
          !(l.cat_id == catId && l.username == u.username)) } catId).2 := by
  obtain ⟨n, h⟩ := h
  rcases hr : getUserRecordBySessionToken s tok with e | u
  · rw [unlikeCat] at h
    rw [hr] at h
    simp at h
  · rcases he : ensureCatExists s catId with e | unitv
    · rw [unlikeCat] at h
      rw [hr, he] at h
      simp at h
    · cases unitv
      refine ⟨u, rfl, rfl, ?_⟩
      simp only [unlikeCat, hr, he]

/-- A second identical `unlikeCat` call leaves the store unchanged. -/
theorem unlikeCat_idem (s : Store) (tok catId : String)
    (h : ∃ n, (unlikeCat s tok catId).1 = .ok n) :
    (unlikeCat ((unlikeCat s tok catId).2) tok catId).2 = (unlikeCat s tok catId).2 := by
  obtain ⟨u, hr, he, hstore⟩ := unlikeCat_ok_elim s tok catId h
  rw [hstore]
  have husers : ((refreshCatLikeCount { s with likes := s.likes.filter (fun l =>
      !(l.cat_id == catId && l.username == u.username)) } catId).2).users = s.users := rfl
  have hlikes : ((refreshCatLikeCount { s with likes := s.likes.filter (fun l =>
      !(l.cat_id == catId && l.username == u.username)) } catId).2).likes =
      s.likes.filter (fun l => !(l.cat_id == catId && l.username == u.username)) := rfl
  have hres1 : getUserRecordBySessionToken
      ((refreshCatLikeCount { s with likes := s.likes.filter (fun l =>
        !(l.cat_id == catId && l.username == u.username)) } catId).2) tok = .ok u := by
    rw [getUserRecord_eq_of_users s _ tok husers]
    exact hr
  obtain ⟨c, hc⟩ := (ensureCat_ok_iff s catId).mp he
  have hcats1 : ((refreshCatLikeCount { s with likes := s.likes.filter (fun l =>
      !(l.cat_id == catId && l.username == u.username)) } catId).2).cats =
      s.cats.map (setCatLikes catId
        (((s.likes.filter (fun l => !(l.cat_id == catId && l.username == u.username))).filter
          (fun l => l.cat_id == catId)).length)) := rfl
  have hens1 : ensureCatExists
      ((refreshCatLikeCount { s with likes := s.likes.filter (fun l =>
        !(l.cat_id == catId && l.username == u.username)) } catId).2) catId = .ok () := by
    apply (ensureCat_ok_iff _ catId).mpr
    refine ⟨setCatLikes catId
      (((s.likes.filter (fun l => !(l.cat_id == catId && l.username == u.username))).filter
        (fun l => l.cat_id == catId)).length) c, ?_⟩
    rw [hcats1, filter_map_of_pred_preserved, hc]
    · rfl
    · intro v _
      rw [setCatLikes_id]
  rw [unlikeCat]
  rw [hres1, hens1]
  dsimp only
  rw [hlikes, filter_idem]
  apply store_update_likes_cats_eta
  · exact hlikes.symm
  · rw [hcats1, List.map_map]
    apply map_congr_mem
    intro x _
    exact setCatLikes_idem catId _ x



/-- Collections up to the `updated_at` stamp (neither an edge row nor a
counter). -/
def stripUpdatedAt (c : CollectionRow) : CollectionRow := { c with updated_at := 0 }

/-- The state the idempotence property ranges over: every table, with
collections taken modulo their `updated_at` stamp. -/
def stateView (s : Store) :
    List UserRow × List FollowRow × List LikeRow × List CatRow ×
      List CollectionCatRow × List CollectionRow :=
  (s.users, s.follows, s.likes, s.cats, s.collection_cats,
   s.collections.map stripUpdatedAt)

theorem addCatCountDelta_fields (colId A : String) (cnt now : Nat) (c : CollectionRow) :
    (addCatCountDelta colId A cnt now c).id = c.id ∧
    (addCatCountDelta colId A cnt now c).owner_username = c.owner_username := by
  unfold addCatCountDelta
  split <;> exact ⟨rfl, rfl⟩

theorem subCatCountDelta_fields (colId A : String) (cnt now : Nat) (c : CollectionRow) :
    (subCatCountDelta colId A cnt now c).id = c.id ∧
    (subCatCountDelta colId A cnt now c).owner_username = c.owner_username := by
  unfold subCatCountDelta
  split <;> exact ⟨rfl, rfl⟩

theorem strip_addDelta_zero (colId A : String) (now : Nat) (x : CollectionRow) :
    stripUpdatedAt (addCatCountDelta colId A 0 now x) = stripUpdatedAt x := by
  unfold addCatCountDelta stripUpdatedAt
  split <;> simp

theorem strip_subDelta_zero (colId A : String) (now : Nat) (x : CollectionRow) :
    stripUpdatedAt (subCatCountDelta colId A 0 now x) = stripUpdatedAt x := by
  unfold subCatCountDelta stripUpdatedAt
  split <;> simp

theorem target_eq_of_owner (l : List CollectionRow) (colId A : String)
    (col : CollectionRow)
    (hc : l.filter (fun c => c.id == colId) = [col])
    (how : (col.owner_username == A) = true) :
    l.filter (fun c => c.id == colId && c.owner_username == A) = [col] := by
  have h1 : l.filter (fun c => c.id == colId && c.owner_username == A) =
      (l.filter (fun c => c.id == colId)).filter (fun c => c.owner_username == A) := by
    rw [List.filter_filter]
    apply List.filter_congr
    intro x _
    exact Bool.and_comm _ _
  rw [h1, hc, List.filter_cons, how]
  rfl

theorem assertCollectionOwner_ok_elim (s : Store) (colId A : String)
    (col : CollectionRow) (h : assertCollectionOwner s colId A = .ok col) :
    s.collections.filter (fun c => c.id == colId) = [col] ∧
      col.owner_username = A := by
  rcases hf : s.collections.filter (fun c => c.id == colId) with _ | ⟨a, _ | ⟨a2, t⟩⟩
  · rw [assertCollectionOwner, getCollectionById, hf] at h
    simp [maybeSingle] at h
  · rw [assertCollectionOwner, getCollectionById, hf] at h
    simp only [maybeSingle] at h
    by_cases how : a.owner_username ≠ A
    · rw [if_pos how] at h
      cases h
    · rw [if_neg how] at h
      cases h
      exact ⟨hf, not_not.mp how⟩
  · rw [assertCollectionOwner, getCollectionById, hf] at h
    simp [maybeSingle] at h

theorem addCatRPC_store_ex (s : Store) (colId catId A : String) (now : Nat)
    (col : CollectionRow)
    (ht : s.collections.filter (fun c =>
      c.id == colId && c.owner_username == A) = [col]) :
    ∃ cnt M, (addCatToCollectionWithCount s colId catId A now).2 =
      { s with collection_cats := M
               collections := s.collections.map (addCatCountDelta colId A cnt now) } ∧
      (M.any (fun m => m.collection_id == colId && m.cat_id == catId)) = true := by
  cases hm : s.collection_cats.any (fun m =>
      m.collection_id == colId && m.cat_id == catId) with
  | true =>
    refine ⟨0, s.collection_cats, ?_, hm⟩
    rw [addCatToCollectionWithCount]
    rw [ht]
    simp [hm]
  | false =>
    refine ⟨1, s.collection_cats ++ [⟨colId, catId, now⟩], ?_, ?_⟩
    · rw [addCatToCollectionWithCount]
      rw [ht]
      simp [hm]
    · simp [List.any_append]

theorem addCatRPC_store_conflict (s : Store) (colId catId A : String) (now : Nat)
    (col : CollectionRow)
    (ht : s.collections.filter (fun c =>
      c.id == colId && c.owner_username == A) = [col])
    (hm : (s.collection_cats.any (fun m =>
      m.collection_id == colId && m.cat_id == catId)) = true) :
    (addCatToCollectionWithCount s colId catId A now).2 =
      { s with collections := s.collections.map (addCatCountDelta colId A 0 now) } := by
  rw [addCatToCollectionWithCount]
  rw [ht]
  simp [hm]



theorem addCat_ok_elim (s : Store) (tok colId catId : String) (now : Nat)
    (h : ∃ n, (addCatToCollection s tok colId catId now).1 = .ok n) :
    ∃ u col, getUserRecordBySessionToken s tok = .ok u ∧
      ensureCatExists s catId = .ok () ∧
      s.collections.filter (fun c => c.id == colId) = [col] ∧
      col.owner_username = u.username ∧
      (addCatToCollection s tok colId catId now).2 =
        (addCatToCollectionWithCount s colId catId u.username now).2 := by
  obtain ⟨n, h⟩ := h
  rcases hr : getUserRecordBySessionToken s tok with e | u
  · rw [addCatToCollection] at h
    rw [hr] at h
    simp at h
  · rcases ha : assertCollectionOwner s colId u.username with e | col
    · rw [addCatToCollection] at h
      rw [hr] at h
      dsimp only at h
      rw [ha] at h
      simp at h
    · obtain ⟨hcol, howner⟩ := assertCollectionOwner_ok_elim s colId u.username col ha
      rcases he : ensureCatExists s catId with e | unitv
      · rw [addCatToCollection] at h
        rw [hr] at h
        dsimp only at h
        rw [ha] at h
        dsimp only at h
        rw [he] at h
        simp at h
      · cases unitv
        refine ⟨u, col, rfl, rfl, hcol, howner, ?_⟩
        rw [addCatToCollection]
        rw [hr]
        dsimp only
        rw [ha]
        dsimp only
        rw [he]
        dsimp only
        cases hval : (addCatToCollectionWithCount s colId catId u.username now).1 with
        | none => rfl
        | some m => rfl

theorem addCat_second_noop (s₁ : Store) (tok colId catId : String) (now₂ : Nat)
    (u : UserRow) (col₁ : CollectionRow)
    (hres1 : getUserRecordBySessionToken s₁ tok = .ok u)
    (hcol1 : s₁.collections.filter (fun c => c.id == colId) = [col₁])
    (hown1 : col₁.owner_username = u.username)
    (hens1 : ensureCatExists s₁ catId = .ok ())
    (hm1 : (s₁.collection_cats.any (fun m =>
      m.collection_id == colId && m.cat_id == catId)) = true) :
    stateView ((addCatToCollection s₁ tok colId catId now₂).2) = stateView s₁ := by
  have ht1 := target_eq_of_owner s₁.collections colId u.username col₁ hcol1
    (beq_iff_eq.mpr hown1)
  have hass1 : assertCollectionOwner s₁ colId u.username = .ok col₁ := by
    rw [assertCollectionOwner, getCollectionById, hcol1]
    have hno : ¬ (col₁.owner_username ≠ u.username) := not_not.mpr hown1
    simp [maybeSingle, hno]
  have hrpc2 := addCatRPC_store_conflict s₁ colId catId u.username now₂ col₁ ht1 hm1
  rw [addCatToCollection]
  rw [hres1]
  dsimp only
  rw [hass1]
  dsimp only
  rw [hens1]
  dsimp only
  have hfinal : ∀ r : Option Nat,
      (match r with
        | none => ((Except.error (AppError.http "Collection not found" 404) :
            Except AppError Nat),
            (addCatToCollectionWithCount s₁ colId catId u.username now₂).2)
        | some count => (Except.ok count,
            (addCatToCollectionWithCount s₁ colId catId u.username now₂).2)).2 =
      (addCatToCollectionWithCount s₁ colId catId u.username now₂).2 := by
    intro r
    cases r <;> rfl
  rw [hfinal]
  rw [hrpc2]
  have hmap : (s₁.collections.map (addCatCountDelta colId u.username 0 now₂)).map
      stripUpdatedAt = s₁.collections.map stripUpdatedAt := by
    rw [List.map_map]
    apply map_congr_mem
    intro x _
    exact strip_addDelta_zero colId u.username now₂ x
  unfold stateView
  dsimp only
  rw [hmap]

theorem addCat_idem (s : Store) (tok colId catId : String) (now₁ now₂ : Nat)
    (h : ∃ n, (addCatToCollection s tok colId catId now₁).1 = .ok n) :
    stateView ((addCatToCollection ((addCatToCollection s tok colId catId now₁).2)
        tok colId catId now₂).2) =
      stateView ((addCatToCollection s tok colId catId now₁).2) := by
  obtain ⟨u, col, hr, he, hcol, howner, hstore⟩ := addCat_ok_elim s tok colId catId now₁ h
  rw [hstore]
  have ht := target_eq_of_owner s.collections colId u.username col hcol
    (beq_iff_eq.mpr howner)
  obtain ⟨cnt, M, hs1, hM⟩ := addCatRPC_store_ex s colId catId u.username now₁ col ht
  rw [hs1]
  apply addCat_second_noop _ tok colId catId now₂ u
    (addCatCountDelta colId u.username cnt now₁ col)
  · exact (getUserRecord_eq_of_users s _ tok rfl).trans hr
  · show (s.collections.map (addCatCountDelta colId u.username cnt now₁)).filter
      (fun c => c.id == colId) = _
    rw [filter_map_of_pred_preserved, hcol]
    · rfl
    · intro v _
      rw [(addCatCountDelta_fields colId u.username cnt now₁ v).1]
  · rw [(addCatCountDelta_fields colId u.username cnt now₁ col).2]
    exact howner
  · exact (ensureCat_eq_of_cats s _ catId rfl).trans he
  · exact hM



theorem removeCatRPC_store (s : Store) (colId catId A : String) (now : Nat)
    (col : CollectionRow)
    (ht : s.collections.filter (fun c =>
      c.id == colId && c.owner_username == A) = [col]) :
    (removeCatFromCollectionWithCount s colId catId A now).2 =
      { s with
        collection_cats := s.collection_cats.filter (fun m =>
          !(m.collection_id == colId && m.cat_id == catId))
        collections := s.collections.map (subCatCountDelta colId A
          ((s.collection_cats.filter (fun m =>
            m.collection_id == colId && m.cat_id == catId)).length) now) } := by
  rw [removeCatFromCollectionWithCount]
  rw [ht]

theorem removeCat_ok_elim (s : Store) (tok colId catId : String) (now : Nat)
    (h : ∃ n, (removeCatFromCollection s tok colId catId now).1 = .ok n) :
    ∃ u col, getUserRecordBySessionToken s tok = .ok u ∧
      ensureCatExists s catId = .ok () ∧
      s.collections.filter (fun c => c.id == colId) = [col] ∧
      col.owner_username = u.username ∧
      (removeCatFromCollection s tok colId catId now).2 =
        (removeCatFromCollectionWithCount s colId catId u.username now).2 := by
  obtain ⟨n, h⟩ := h
  rcases hr : getUserRecordBySessionToken s tok with e | u
  · rw [removeCatFromCollection] at h
    rw [hr] at h
    simp at h
  · rcases ha : assertCollectionOwner s colId u.username with e | col
    · rw [removeCatFromCollection] at h
      rw [hr] at h
      dsimp only at h
      rw [ha] at h
      simp at h
    · obtain ⟨hcol, howner⟩ := assertCollectionOwner_ok_elim s colId u.username col ha
      rcases he : ensureCatExists s catId with e | unitv
      · rw [removeCatFromCollection] at h
        rw [hr] at h
        dsimp only at h
        rw [ha] at h
        dsimp only at h
        rw [he] at h
        simp at h
      · cases unitv
        refine ⟨u, col, rfl, rfl, hcol, howner, ?_⟩
        rw [removeCatFromCollection]
        rw [hr]
        dsimp only
        rw [ha]
        dsimp only
        rw [he]
        dsimp only
        cases hval : (removeCatFromCollectionWithCount s colId catId u.username now).1 with
        | none => rfl
        | some m => rfl

theorem removeCat_second_noop (s₁ : Store) (tok colId catId : String) (now₂ : Nat)
    (u : UserRow) (col₁ : CollectionRow)
    (hres1 : getUserRecordBySessionToken s₁ tok = .ok u)
    (hcol1 : s₁.collections.filter (fun c => c.id == colId) = [col₁])
    (hown1 : col₁.owner_username = u.username)
    (hens1 : ensureCatExists s₁ catId = .ok ())
    (hm0 : s₁.collection_cats.filter (fun m =>
      m.collection_id == colId && m.cat_id == catId) = []) :
    stateView ((removeCatFromCollection s₁ tok colId catId now₂).2) = stateView s₁ := by
  have ht1 := target_eq_of_owner s₁.collections colId u.username col₁ hcol1
    (beq_iff_eq.mpr hown1)
  have hass1 : assertCollectionOwner s₁ colId u.username = .ok col₁ := by
    rw [assertCollectionOwner, getCollectionById, hcol1]
    have hno : ¬ (col₁.owner_username ≠ u.username) := not_not.mpr hown1
    simp [maybeSingle, hno]
  have hrpc2 := removeCatRPC_store s₁ colId catId u.username now₂ col₁ ht1
  rw [removeCatFromCollection]
  rw [hres1]
  dsimp only
  rw [hass1]
  dsimp only
  rw [hens1]
  dsimp only
  have hfinal : ∀ r : Option Nat,
      (match r with
        | none => ((Except.error (AppError.http "Collection not found" 404) :
            Except AppError Nat),
            (removeCatFromCollectionWithCount s₁ colId catId u.username now₂).2)
        | some count => (Except.ok count,
            (removeCatFromCollectionWithCount s₁ colId catId u.username now₂).2)).2 =
      (removeCatFromCollectionWithCount s₁ colId catId u.username now₂).2 := by
    intro r
    cases r <;> rfl
  rw [hfinal]
  rw [hrpc2, hm0]
  have hkeep : s₁.collection_cats.filter (fun m =>
      !(m.collection_id == colId && m.cat_id == catId)) = s₁.collection_cats := by
    rw [List.filter_eq_self]
    intro a ha
    have h3 := List.filter_eq_nil_iff.mp hm0 a ha
    have h4 : (a.collection_id == colId && a.cat_id == catId) = false :=
      Bool.eq_false_iff.mpr h3
    rw [h4]
    rfl
  have hmap : (s₁.collections.map (subCatCountDelta colId u.username
      ([] : List CollectionCatRow).length now₂)).map stripUpdatedAt =
      s₁.collections.map stripUpdatedAt := by
    rw [List.map_map]
    apply map_congr_mem
    intro x _
    exact strip_subDelta_zero colId u.username now₂ x
  unfold stateView
  dsimp only
  rw [hmap, hkeep]

theorem removeCat_idem (s : Store) (tok colId catId : String) (now₁ now₂ : Nat)
    (h : ∃ n, (removeCatFromCollection s tok colId catId now₁).1 = .ok n) :
    stateView ((removeCatFromCollection
        ((removeCatFromCollection s tok colId catId now₁).2) tok colId catId now₂).2) =
      stateView ((removeCatFromCollection s tok colId catId now₁).2) := by
  obtain ⟨u, col, hr, he, hcol, howner, hstore⟩ :=
    removeCat_ok_elim s tok colId catId now₁ h
  rw [hstore]
  have ht := target_eq_of_owner s.collections colId u.username col hcol
    (beq_iff_eq.mpr howner)
  rw [removeCatRPC_store s colId catId u.username now₁ col ht]
  apply removeCat_second_noop _ tok colId catId now₂ u
    (subCatCountDelta colId u.username
      ((s.collection_cats.filter (fun m =>
        m.collection_id == colId && m.cat_id == catId)).length) now₁ col)
  · exact (getUserRecord_eq_of_users s _ tok rfl).trans hr
  · show (s.collections.map (subCatCountDelta colId u.username _ now₁)).filter
      (fun c => c.id == colId) = _
    rw [filter_map_of_pred_preserved, hcol]
    · rfl
    · intro v _
      rw [(subCatCountDelta_fields colId u.username _ now₁ v).1]
  · rw [(subCatCountDelta_fields colId u.username _ now₁ col).2]
    exact howner
  · exact (ensureCat_eq_of_cats s _ catId rfl).trans he
  · show (s.collection_cats.filter (fun m =>
      !(m.collection_id == colId && m.cat_id == catId))).filter (fun m =>
      m.collection_id == colId && m.cat_id == catId) = []
    exact filter_not_self _ s.collection_cats



/-- C4: executing the same edge mutation twice in sequence produces a
final state — edge rows and all counters — identical to executing it once:
for follow, unfollow, like and unlike the stores are equal outright; for
collection membership add/remove every table agrees and the collections
agree up to the `updated_at` stamp, which the routine refreshes
unconditionally. -/
theorem edge_mutations_idempotent :
    (∀ s tok B now₁ now₂, (followUser s tok B now₁).1 = .ok () →
      (followUser ((followUser s tok B now₁).2) tok B now₂).2 =
        (followUser s tok B now₁).2) ∧
    (∀ s tok B, (unfollowUser s tok B).1 = .ok () →
      (unfollowUser ((unfollowUser s tok B).2) tok B).2 = (unfollowUser s tok B).2) ∧
    (∀ s tok catId, (∃ n, (likeCat s tok catId).1 = .ok n) →
      (likeCat ((likeCat s tok catId).2) tok catId).2 = (likeCat s tok catId).2) ∧
    (∀ s tok catId, (∃ n, (unlikeCat s tok catId).1 = .ok n) →
      (unlikeCat ((unlikeCat s tok catId).2) tok catId).2 = (unlikeCat s tok catId).2) ∧
    (∀ s tok colId catId now₁ now₂,
      (∃ n, (addCatToCollection s tok colId catId now₁).1 = .ok n) →
      stateView ((addCatToCollection ((addCatToCollection s tok colId catId now₁).2)
          tok colId catId now₂).2) =
        stateView ((addCatToCollection s tok colId catId now₁).2)) ∧
    (∀ s tok colId catId now₁ now₂,
      (∃ n, (removeCatFromCollection s tok colId catId now₁).1 = .ok n) →
      stateView ((removeCatFromCollection
          ((removeCatFromCollection s tok colId catId now₁).2) tok colId catId now₂).2) =
        stateView ((removeCatFromCollection s tok colId catId now₁).2)) :=
  ⟨fun s tok B now₁ now₂ h => followUser_idem s tok B now₁ now₂ h,
   fun s tok B h => unfollowUser_idem s tok B h,
   fun s tok catId h => likeCat_idem s tok catId h,
   fun s tok catId h => unlikeCat_idem s tok catId h,
   fun s tok colId catId now₁ now₂ h => addCat_idem s tok colId catId now₁ now₂ h,
   fun s tok colId catId now₁ now₂ h => removeCat_idem s tok colId catId now₁ now₂ h⟩

/-- Witness for C4: all six doubled mutations on a concrete store. -/
theorem edge_mutations_idempotent_witness :
    (followUser ((followUser socialDemoStore "tokA" "bobby" 3).2) "tokA" "bobby" 4).2 =
      (followUser socialDemoStore "tokA" "bobby" 3).2 ∧
    (unfollowUser ((unfollowUser socialDemoStore "tokA" "bobby").2) "tokA" "bobby").2 =
      (unfollowUser socialDemoStore "tokA" "bobby").2 ∧
    (likeCat ((likeCat socialDemoStore "tokA" "cat1").2) "tokA" "cat1").2 =
      (likeCat socialDemoStore "tokA" "cat1").2 ∧
    (unlikeCat ((unlikeCat socialDemoStore "tokA" "cat1").2) "tokA" "cat1").2 =
      (unlikeCat socialDemoStore "tokA" "cat1").2 ∧
    stateView ((addCatToCollection
        ((addCatToCollection socialDemoStore "tokA" "col1" "cat1" 5).2)
        "tokA" "col1" "cat1" 6).2) =
      stateView ((addCatToCollection socialDemoStore "tokA" "col1" "cat1" 5).2) ∧
    stateView ((removeCatFromCollection
        ((removeCatFromCollection socialDemoStore "tokA" "col1" "cat1" 5).2)
        "tokA" "col1" "cat1" 6).2) =
      stateView ((removeCatFromCollection socialDemoStore "tokA" "col1" "cat1" 5).2) :=
  ⟨edge_mutations_idempotent.1 socialDemoStore "tokA" "bobby" 3 4 (by decide),
   edge_mutations_idempotent.2.1 socialDemoStore "tokA" "bobby" (by decide),
   edge_mutations_idempotent.2.2.1 socialDemoStore "tokA" "cat1" ⟨1, by decide⟩,
   edge_mutations_idempotent.2.2.2.1 socialDemoStore "tokA" "cat1" ⟨0, by decide⟩,
   edge_mutations_idempotent.2.2.2.2.1 socialDemoStore "tokA" "col1" "cat1" 5 6 ⟨1, by decide⟩,
   edge_mutations_idempotent.2.2.2.2.2 socialDemoStore "tokA" "col1" "cat1" 5 6 ⟨0, by decide⟩⟩

/-! ## C1 -/

/-- C1: the claim that walking pages from a null cursor yields the full
result set exactly once fails on the code. With three content items at
increasing timestamps and `limit = 2`, the first page is the two newest
rows, but the next cursor is encoded from `rows[limit]` — the oldest row,
which the page did NOT include — and the follow-up query filters strictly
below that cursor, so the second page is empty and the oldest row is never
returned. (The spec scenario expects the second page to be exactly the
oldest item.) -/
theorem pagination_walk_drops_boundary_row :
    (listCats paginationDemoStore 2 none).1 = [mkCat "c" 3 (some 0), mkCat "b" 2 (some 0)] ∧
    (listCats paginationDemoStore 2 none).2 = some (encodeCursor (mkCat "a" 1 (some 0))) ∧
    listCats paginationDemoStore 2 (some (encodeCursor (mkCat "a" 1 (some 0)))) = ([], none) ∧
    walkPages paginationDemoStore 2 4 none = [mkCat "c" 3 (some 0), mkCat "b" 2 (some 0)] ∧
    mkCat "a" 1 (some 0) ∈ paginationDemoStore.cats ∧
    mkCat "a" 1 (some 0) ∉ walkPages paginationDemoStore 2 4 none := by
  decide

/-! ## C2 -/

/-- C2: the claim that every edge mutation applies a counter delta equal to
the affected-row count of the edge write fails on `CatLikeService`, which
recounts the aggregate and writes it back. On a store where `cats.likes`
is 5 while zero like edges exist, liking inserts one edge (affected-row
count 1), so the delta discipline — also implemented by the
`like_cat_with_count` SQL routine — would store 5 + 1 = 6; the service
instead stores the recomputed aggregate 1. -/
theorem likeCat_writes_recomputed_aggregate :
    likeEdgeInsertCount likeDemoStore "cat1" "alice" = 1 ∧
    (likeCat likeDemoStore "tokA" "cat1").1 = .ok 1 ∧
    ((likeCat likeDemoStore "tokA" "cat1").2.cats.map (fun c => c.likes)) = [some 1] ∧
    (likeCatWithCount likeDemoStore "cat1" "alice").1 = some 6 ∧
    ((likeCatWithCount likeDemoStore "cat1" "alice").2.cats.map (fun c => c.likes)) = [some 6] ∧
    (1 : Nat) ≠ 5 + likeEdgeInsertCount likeDemoStore "cat1" "alice" := by
  decide

/-! ## C5 -/

/-- C5: for a session resolving to user `u`, following or unfollowing the
own username fails with the validation error
"Users cannot follow/unfollow themselves" (HTTP 400) and leaves the store
untouched. -/
theorem self_follow_rejected (s : Store) (tok t : String) (now : Nat) (u : UserRow)
    (hres : getUserRecordBySessionToken s tok = .ok u) (hself : u.username = t) :
    followUser s tok t now = (.error (.http "Users cannot follow themselves" 400), s) ∧
    unfollowUser s tok t = (.error (.http "Users cannot unfollow themselves" 400), s) := by
  subst hself
  constructor
  · unfold followUser
    rw [hres]
    simp
  · unfold unfollowUser
    rw [hres]
    simp

/-- Witness for C5 at a concrete store. -/
theorem self_follow_rejected_witness :
    followUser socialDemoStore "tokA" "alice" 7 =
      (.error (.http "Users cannot follow themselves" 400), socialDemoStore) ∧
    unfollowUser socialDemoStore "tokA" "alice" =
      (.error (.http "Users cannot unfollow themselves" 400), socialDemoStore) :=
  self_follow_rejected socialDemoStore "tokA" "alice" 7
    (mkUser "alice" "alice@x.com" "tokA") (by decide) (by decide)

/-! ## C7 -/

/-- C7 counterexample: a non-owner deleting a collection does not get a
Forbidden-kind error; the delete is filtered by owner, matches zero rows,
and surfaces as `HttpError("Collection not found or access denied", 404)`.
The store is unchanged, but the error kind refutes the claim as stated. -/
theorem delete_by_non_owner_not_forbidden :
    deleteCollection socialDemoStore "tokB" "col1" =
      (.error (.http "Collection not found or access denied" 404), socialDemoStore) ∧
    (AppError.http "Collection not found or access denied" 404).status ≠ 403 := by
  decide

/-! ## C9 -/

/-- C9 counterexample: the follower-listing routes parse the limit with
`parseLimitParam(limitParam, 25, 100)`, so a requested limit of 100 is
served as 100 (not clamped to 50), and an absent limit yields 25, not 20. -/
theorem followers_limit_exceeds_fifty :
    followersListLimit (some "100") = (100, none) ∧ ¬ (100 ≤ 50) ∧
    followersListLimit none = (25, none) ∧ (25 : Nat) ≠ 20 := by
  decide

/-! ## C10 -/

/-- C10 counterexample: the comment routes reject a present but non-64-hex
session token with status 400, not 401, and `/users/update` checks only
the presence of the token, letting a malformed token through to the store
lookup. -/
theorem comments_gate_rejects_with_400 :
    commentsRouteSessionGate (some "zz") = some ("Invalid session_token", 400) ∧
    (400 : Nat) ≠ 401 ∧
    updateUserSessionGate (some "zz") = none := by
  decide

/-! ## C6 -/

/-- C6: authentication at login is keyed by the supplied email. Writing
`ne` for the normalized (trimmed, lower-cased) supplied email, and given
that at most one identity carries `ne` (emails are unique), the login
succeeds with a fresh session token and the profile of the identity whose
stored email is `ne` exactly when such an identity exists and its stored
password hash equals the supplied hash — rotating only that identity's
token — and fails with `AuthError("Invalid email or password")` otherwise. -/
theorem login_keyed_by_email (s : Store) (env email passwordHash newToken : String)
    (hne : jsToLower (jsTrim email) ≠ "")
    (huniq : (s.users.filter (fun u => u.email == jsToLower (jsTrim email))).length ≤ 1) :
    (∀ u : UserRow, s.users.filter (fun v => v.email == jsToLower (jsTrim email)) = [u] →
      u.password_hash = passwordHash →
      loginUser s env email passwordHash newToken =
        (.ok (newToken, mapUserRecordToProfile env u),
         { s with users := s.users.map (fun v =>
             if v.email == jsToLower (jsTrim email) then
               { v with session_token := some newToken } else v) })) ∧
    ((∀ u ∈ s.users, ¬(u.email = jsToLower (jsTrim email) ∧ u.password_hash = passwordHash)) →
      loginUser s env email passwordHash newToken =
        (.error (.auth "Invalid email or password"), s)) := by
  have hemail : email ≠ "" := by
    intro h
    subst h
    exact hne (by decide)
  have hnorm : normalizeEmail (some email) = some (jsToLower (jsTrim email)) := by
    simp [normalizeEmail, hemail]
  constructor
  · intro u hu hpw
    rw [loginUser, hnorm]
    simp only [if_neg hne, hu, maybeSingle]
    simp [hpw]
  · intro hnomatch
    rw [loginUser, hnorm]
    simp only [if_neg hne]
    rcases hf : s.users.filter (fun v => v.email == jsToLower (jsTrim email)) with _ | ⟨a, _ | ⟨b, t⟩⟩
    · rw [hf]
      simp [maybeSingle]
    · have ha : a ∈ s.users.filter (fun v => v.email == jsToLower (jsTrim email)) := by
        rw [hf]; exact List.mem_singleton_self a
      have hmem := List.mem_filter.mp ha
      have hae : a.email = jsToLower (jsTrim email) := (beq_iff_eq).mp hmem.2
      have hap : a.password_hash ≠ passwordHash := by
        intro h
        exact hnomatch a hmem.1 ⟨hae, h⟩
      rw [hf]
      simp [maybeSingle, hap]
    · rw [hf] at huniq
      simp at huniq

/-- Witness for C6: a mixed-case padded spelling of the stored email logs
in and rotates the token; the right email with a wrong hash fails with the
auth error. -/
theorem login_keyed_by_email_witness :
    loginUser socialDemoStore "" " Alice@X.com " "h1" "tok9" =
      (.ok ("tok9", mapUserRecordToProfile "" (mkUser "alice" "alice@x.com" "tokA")),
       { socialDemoStore with users := socialDemoStore.users.map (fun v =>
           if v.email == jsToLower (jsTrim " Alice@X.com ") then
             { v with session_token := some "tok9" } else v) }) ∧
    loginUser socialDemoStore "" "alice@x.com" "wrong" "tok9" =
      (.error (.auth "Invalid email or password"), socialDemoStore) :=
  ⟨(login_keyed_by_email socialDemoStore "" " Alice@X.com " "h1" "tok9" (by decide)
      (by decide)).1 (mkUser "alice" "alice@x.com" "tokA") (by decide) (by decide),
   (login_keyed_by_email socialDemoStore "" "alice@x.com" "wrong" "tok9" (by decide)
      (by decide)).2 (by decide)⟩

/-! ## C7 (amended) -/

/-- C7 amended: for a non-owner with a valid session, collection rename and
membership add/remove fail with `HttpError("Forbidden", 403)`; collection
delete — which filters the delete by owner instead of asserting ownership —
fails with `HttpError("Collection not found or access denied", 404)`. In
every case the store is unchanged. -/
theorem collection_mutations_ownership_gated (s : Store) (tok colId : String)
    (u : UserRow) (col : CollectionRow)
    (hres : getUserRecordBySessionToken s tok = .ok u)
    (hcol : s.collections.filter (fun c => c.id == colId) = [col])
    (howner : col.owner_username ≠ u.username) :
    (∀ name desc now, updateCollection s tok colId name desc now =
      (.error (.http "Forbidden" 403), s)) ∧
    (∀ catId now, addCatToCollection s tok colId catId now =
      (.error (.http "Forbidden" 403), s)) ∧
    (∀ catId now, removeCatFromCollection s tok colId catId now =
      (.error (.http "Forbidden" 403), s)) ∧
    deleteCollection s tok colId =
      (.error (.http "Collection not found or access denied" 404), s) := by
  have hassert : assertCollectionOwner s colId u.username = .error (.http "Forbidden" 403) := by
    simp [assertCollectionOwner, getCollectionById, hcol, maybeSingle, howner]
  have hdel : s.collections.filter
      (fun c => c.id == colId && c.owner_username == u.username) = [] := by
    rw [List.filter_eq_nil_iff]
    intro c hc
    by_cases hid : (c.id == colId) = true
    · have hmem : c ∈ s.collections.filter (fun c => c.id == colId) :=
        List.mem_filter.mpr ⟨hc, hid⟩
      rw [hcol] at hmem
      have hceq : c = col := by simpa using hmem
      subst hceq
      simp only [hid, Bool.true_and]
      intro h
      exact howner ((beq_iff_eq).mp h)
    · simp only [Bool.and_eq_true]
      intro h
      exact hid h.1
  refine ⟨?_, ?_, ?_, ?_⟩
  · intro name desc now
    simp only [updateCollection, hres, hassert]
  · intro catId now
    simp only [addCatToCollection, hres, hassert]
  · intro catId now
    simp only [removeCatFromCollection, hres, hassert]
  · rw [deleteCollection, hres]
    simp only [hdel, maybeSingle, List.any_nil]
    have h1 : s.collections.filter
        (fun c => !(c.id == colId && c.owner_username == u.username)) = s.collections := by
      rw [List.filter_eq_self]
      intro c hc
      have h3 := List.filter_eq_nil_iff.mp hdel c hc
      have h4 : (c.id == colId && c.owner_username == u.username) = false :=
        Bool.eq_false_iff.mpr h3
      rw [h4]
      rfl
    have h2 : s.collection_cats.filter (fun _ => !false) = s.collection_cats := by
      simp
    rw [h1]
    simp

/-- Witness for C7 (amended): bobby attempts to mutate the collection of
alice. -/
theorem collection_mutations_ownership_gated_witness :
    updateCollection socialDemoStore "tokB" "col1" (some "x") none 9 =
      (.error (.http "Forbidden" 403), socialDemoStore) ∧
    addCatToCollection socialDemoStore "tokB" "col1" "cat1" 9 =
      (.error (.http "Forbidden" 403), socialDemoStore) ∧
    removeCatFromCollection socialDemoStore "tokB" "col1" "cat1" 9 =
      (.error (.http "Forbidden" 403), socialDemoStore) ∧
    deleteCollection socialDemoStore "tokB" "col1" =
      (.error (.http "Collection not found or access denied" 404), socialDemoStore) :=
  have h := collection_mutations_ownership_gated socialDemoStore "tokB" "col1"
    (mkUser "bobby" "bobby@x.com" "tokB") demoCollection (by decide) (by decide) (by decide)
  ⟨h.1 (some "x") none 9, h.2.1 "cat1" 9, h.2.2.1 "cat1" 9, h.2.2.2⟩

/-! ## C8 -/

/-- C8: resolving a session token fails with
`AuthError("Invalid session token")` exactly when no identity holds the
token (two holders — impossible for the randomly generated unique tokens —
would be a 500 storage error, not an auth error); with a unique holder the
profile of that identity is returned; and the lookup leaves the store
unchanged. -/
theorem resolve_token_spec (s : Store) (env tok : String) :
    ((getUserBySessionToken s env tok).1 = .error (.auth "Invalid session token") ↔
      ∀ u ∈ s.users, u.session_token ≠ some tok) ∧
    (∀ u : UserRow, s.users.filter (fun v => v.session_token == some tok) = [u] →
      (getUserBySessionToken s env tok).1 = .ok (mapUserRecordToProfile env u)) ∧
    (getUserBySessionToken s env tok).2 = s := by
  refine ⟨?_, ?_, rfl⟩
  · rcases hf : s.users.filter (fun v => v.session_token == some tok) with _ | ⟨a, _ | ⟨b, t⟩⟩
    · simp only [getUserBySessionToken, getUserRecordBySessionToken, hf, maybeSingle,
        Except.map]
      constructor
      · intro _ u hu
        have := List.filter_eq_nil_iff.mp hf u hu
        simpa using this
      · intro _
        trivial
    · have ha : a ∈ s.users.filter (fun v => v.session_token == some tok) := by
        rw [hf]; exact List.mem_singleton_self a
      have hmem := List.mem_filter.mp ha
      simp only [getUserBySessionToken, getUserRecordBySessionToken, hf, maybeSingle,
        Except.map]
      constructor
      · intro h
        cases h
      · intro h
        exact absurd ((beq_iff_eq).mp hmem.2) (h a hmem.1)
    · have ha : a ∈ s.users.filter (fun v => v.session_token == some tok) := by
        rw [hf]; exact List.mem_cons_self a _
      have hmem := List.mem_filter.mp ha
      simp only [getUserBySessionToken, getUserRecordBySessionToken, hf, maybeSingle,
        Except.map]
      constructor
      · intro h
        cases h
      · intro h
        exact absurd ((beq_iff_eq).mp hmem.2) (h a hmem.1)
  · intro u hu
    simp [getUserBySessionToken, getUserRecordBySessionToken, hu, maybeSingle, Except.map]

/-- Witness for C8: the unique holder of "tokA" resolves to the alice
profile, and an unheld token fails with the auth error. -/
theorem resolve_token_spec_witness :
    ((getUserBySessionToken socialDemoStore "" "tokA").1 =
      .ok (mapUserRecordToProfile "" (mkUser "alice" "alice@x.com" "tokA"))) ∧
    (getUserBySessionToken socialDemoStore "" "nope").1 =
      .error (.auth "Invalid session token") :=
  ⟨(resolve_token_spec socialDemoStore "" "tokA").2.1 _ (by decide),
   (resolve_token_spec socialDemoStore "" "nope").1.mpr (by decide)⟩

/-! ## C9 (amended) -/

/-- The page size served by `parseLimitParam` never exceeds the larger of
the default and the cap of the calling route. -/
theorem parseLimit_le (raw : Option String) (d m : Nat) :
    (parseLimitParam raw d m).1 ≤ max d m := by
  unfold parseLimitParam
  split
  · exact le_max_left d m
  · rcases parseIntJs (raw.getD "") with _ | n
    · exact le_max_left d m
    · simp only []
      split
      · exact le_max_left d m
      · exact le_trans (min_le_right _ _) (le_max_right d m)

/-- C9 amended: an absent (falsy) limit yields the route default with no
error; a non-numeric or non-positive limit yields the error
"Invalid limit"; a positive numeric limit is clamped to the route cap. The
caps are 50 for the cat, collection and comment listings (defaults 20, 10
and 20) but 100 for the follower/following listings (default 25). -/
theorem limit_parsing_spec :
    (∀ raw d m, (isFalsyStr raw = true → parseLimitParam raw d m = (d, none)) ∧
      (∀ r, raw = some r → isFalsyStr raw = false →
        (parseIntJs r = none → parseLimitParam raw d m = (d, some "Invalid limit")) ∧
        (∀ n : Int, parseIntJs r = some n →
          (n ≤ 0 → parseLimitParam raw d m = (d, some "Invalid limit")) ∧
          (0 < n → parseLimitParam raw d m = (min n.toNat m, none))))) ∧
    (∀ raw, (catsListLimit raw).1 ≤ 50) ∧
    (∀ raw, (collectionsListLimit raw).1 ≤ 50) ∧
    (∀ raw, (commentsListLimit raw).1 ≤ 50) ∧
    (∀ raw, (followersListLimit raw).1 ≤ 100) := by
  refine ⟨fun raw d m => ⟨?_, ?_⟩, fun raw => ?_, fun raw => ?_, fun raw => ?_, fun raw => ?_⟩
  · intro h
    simp [parseLimitParam, h]
  · intro r hr hfalsy
    subst hr
    constructor
    · intro hp
      simp [parseLimitParam, hfalsy, hp]
    · intro n hp
      constructor
      · intro hn
        simp [parseLimitParam, hfalsy, hp, hn]
      · intro hn
        have : ¬ n ≤ 0 := not_le.mpr hn
        simp [parseLimitParam, hfalsy, hp, this]
  · simpa using parseLimit_le raw 20 50
  · simpa using parseLimit_le raw 10 50
  · simpa using parseLimit_le raw 20 50
  · simpa using parseLimit_le raw 25 100

/-- Witness for C9 (amended) at concrete limit strings. -/
theorem limit_parsing_spec_witness :
    parseLimitParam (some "7") 20 50 = (7, none) ∧
    parseLimitParam (some "abc") 20 50 = (20, some "Invalid limit") ∧
    (catsListLimit (some "999")).1 ≤ 50 ∧
    (followersListLimit (some "100")).1 ≤ 100 :=
  ⟨by
    have h := ((limit_parsing_spec.1 (some "7") 20 50).2 "7" rfl (by decide)).2 7 (by decide)
    simpa using h.2 (by decide),
   by
    have h := ((limit_parsing_spec.1 (some "abc") 20 50).2 "abc" rfl (by decide)).1 (by decide)
    simpa using h,
   limit_parsing_spec.2.1 (some "999"),
   limit_parsing_spec.2.2.2.2 (some "100")⟩

/-! ## C10 (amended) -/

/-- Every hex digit emitted by the byte renderer is in `[0-9a-f]`. -/
theorem isHexChar_hexDigitChar (n : Nat) : isHexChar (hexDigitChar n) = true := by
  unfold hexDigitChar
  split <;> decide

/-- Each byte renders as exactly two characters. -/
theorem tokenChars_length (bytes : List Nat) :
    (bytes.flatMap (fun b => [hexDigitChar (b / 16), hexDigitChar (b % 16)])).length
      = 2 * bytes.length := by
  induction bytes with
  | nil => rfl
  | cons b t ih =>
    simp only [List.flatMap_cons, List.length_append, List.length_cons, ih,
      List.length_nil]
    omega

/-- C10 amended: every issued session token is 64 lowercase hex characters,
and the cat/collection handlers reject an invalid-shape token with a 401
independently of the store (so before any lookup); but the comment handlers
reject a present malformed token with a 400, and `/users/update` and
`/users/changePassword` gate only on presence, deferring a malformed token
to the store lookup. -/
theorem session_token_shape_spec :
    (∀ bytes : List Nat, bytes.length = 32 →
      (generateSessionToken bytes).length = 64 ∧
      isValidSha256Hex (some (generateSessionToken bytes)) = true) ∧
    (∀ tok : Option String, ∀ e, validateSessionToken tok = some e →
      ∀ s s' : Store, handleCreateCatAuth s tok = .error (e, 401) ∧
        handleCreateCatAuth s tok = handleCreateCatAuth s' tok) ∧
    (∀ t : String, t ≠ "" → isValidSha256Hex (some t) = false →
      commentsRouteSessionGate (some t) = some ("Invalid session_token", 400)) ∧
    (∀ t : String, t ≠ "" → updateUserSessionGate (some t) = none) := by
  refine ⟨?_, ?_, ?_, ?_⟩
  · intro bytes hlen
    have hchars :
        (bytes.flatMap (fun b => [hexDigitChar (b / 16), hexDigitChar (b % 16)])).length = 64 := by
      rw [tokenChars_length, hlen]
    have hlen64 : (generateSessionToken bytes).length = 64 := by
      simpa [generateSessionToken, String.length] using hchars
    refine ⟨hlen64, ?_⟩
    unfold isValidSha256Hex
    have hne : generateSessionToken bytes ≠ "" := by
      intro h
      rw [h] at hlen64
      simp at hlen64
    simp only [if_neg hne]
    refine (Bool.and_eq_true _ _).mpr ⟨by simpa using hlen64, ?_⟩
    rw [List.all_eq_true]
    intro c hc
    have : c ∈ bytes.flatMap (fun b => [hexDigitChar (b / 16), hexDigitChar (b % 16)]) := by
      simpa [generateSessionToken] using hc
    rcases List.mem_flatMap.mp this with ⟨b, _, hcb⟩
    simp only [List.mem_cons, List.mem_singleton] at hcb
    rcases hcb with h | h | h
    · rw [h]; exact isHexChar_hexDigitChar _
    · rw [h]; exact isHexChar_hexDigitChar _
    · cases h
  · intro tok e he s s'
    constructor
    · simp [handleCreateCatAuth, catsRouteSessionGate, he]
    · simp [handleCreateCatAuth, catsRouteSessionGate, he]
  · intro t ht hhex
    have hv : validateSessionToken (some t) = some "Invalid session_token" := by
      simp [validateSessionToken, ht, hhex]
    simp [commentsRouteSessionGate, hv]
  · intro t ht
    simp [updateUserSessionGate, ht]

/-- Witness for C10 (amended) at a concrete byte list, token and stores. -/
theorem session_token_shape_spec_witness :
    (generateSessionToken (List.replicate 32 171)).length = 64 ∧
    isValidSha256Hex (some (generateSessionToken (List.replicate 32 171))) = true ∧
    (handleCreateCatAuth socialDemoStore (some "zz") = .error ("Invalid session_token", 401) ∧
      handleCreateCatAuth socialDemoStore (some "zz") =
        handleCreateCatAuth paginationDemoStore (some "zz")) ∧
    commentsRouteSessionGate (some "zz") = some ("Invalid session_token", 400) ∧
    updateUserSessionGate (some "zz") = none :=
  ⟨(session_token_shape_spec.1 (List.replicate 32 171) (by decide)).1,
   (session_token_shape_spec.1 (List.replicate 32 171) (by decide)).2,
   session_token_shape_spec.2.1 (some "zz") "Invalid session_token" (by decide)
     socialDemoStore paginationDemoStore,
   session_token_shape_spec.2.2.1 "zz" (by decide) (by decide),
   session_token_shape_spec.2.2.2 "zz" (by decide)⟩

end Pawparazzi
